import Mathlib

/-!
Verification of the GeoIP2-python library against its specification.

The development shallowly embeds the Python sources under `geoip2/`
(`database.py`, `errors.py`, `records.py`, `models.py`, `webservice.py`,
`_internal.py`).  IP addresses and networks are modelled after the behavior
of CPython's `ipaddress` module, which the library calls for parsing and
canonical string formatting.  The external `maxminddb` dependency (binary
search tree and record decoding) is not part of this repository's sources;
where a claim depends on it, the relevant behavior is modelled from the
specification and marked as such.
-/

namespace GeoIP2

/-! ## IP addresses, modelled from CPython's `ipaddress` module -/

inductive IPVersion where
  | v4
  | v6
deriving DecidableEq, Repr

/-- `max_prefixlen`: number of address bits for each IP version. -/
def IPVersion.bits : IPVersion → Nat
  | .v4 => 32
  | .v6 => 128

/-- An `IPv4Address`/`IPv6Address` object: version plus integer value. -/
structure IpAddr where
  version : IPVersion
  value : Nat
deriving DecidableEq, Repr

/-- An `IPv4Network`/`IPv6Network` object: version, network address, prefix. -/
structure IpNetwork where
  version : IPVersion
  netAddr : Nat
  prefixLen : Nat
deriving DecidableEq, Repr

/-- Value of a decimal digit string (all-digit strings only). -/
def digitsToNat (cs : List Char) : Nat :=
  cs.foldl (fun a c => a * 10 + (c.toNat - 48)) 0

/-- Value of a hexadecimal digit string (case-insensitive). -/
def hexDigitVal (c : Char) : Nat :=
  if c.isDigit then c.toNat - 48
  else if 'a' ≤ c ∧ c ≤ 'f' then c.toNat - 87
  else c.toNat - 55

def hexToNat (cs : List Char) : Nat :=
  cs.foldl (fun a c => a * 16 + hexDigitVal c) 0

/-- Python `str.split(sep)` for a one-character separator, on exploded
strings. -/
def splitCharList (sep : Char) (cs : List Char) : List (List Char) :=
  cs.foldr
    (fun c acc =>
      match acc with
      | h :: t => if c = sep then [] :: h :: t else (c :: h) :: t
      | [] => [[c]])
    [[]]

/-- `IPv4Address._parse_octet`: 1–3 ASCII decimal digits, no leading zero,
value at most 255. -/
def parseOctet (cs : List Char) : Option Nat :=
  if cs.length = 0 ∨ 3 < cs.length then none
  else if ¬ cs.all Char.isDigit then none
  else if 1 < cs.length ∧ cs.head? = some '0' then none
  else
    let n := digitsToNat cs
    if n ≤ 255 then some n else none

/-- `IPv4Address._ip_int_from_string`: exactly four dot-separated octets. -/
def parseIPv4 (cs : List Char) : Option Nat :=
  match (splitCharList '.' cs).mapM parseOctet with
  | some [a, b, c, d] => some (((a * 256 + b) * 256 + c) * 256 + d)
  | _ => none

/-- `IPv6Address._parse_hextet`: 1–4 hexadecimal digits. -/
def parseHextet (cs : List Char) : Option Nat :=
  if cs.length = 0 ∨ 4 < cs.length then none
  else if ¬ cs.all (fun c => c.isDigit ∨ ('a' ≤ c ∧ c ≤ 'f') ∨ ('A' ≤ c ∧ c ≤ 'F')) then
    none
  else some (hexToNat cs)

/-- Indices of empty parts strictly inside the colon-separated list
(the candidate positions of a `::`). -/
def interiorEmptyIdxs (parts : List (List Char)) : List Nat :=
  (List.range parts.length).filter
    (fun i => decide (0 < i) && decide (i + 1 < parts.length) && (parts.get? i == some []))

def combineHextets (hs : List Nat) : Nat :=
  hs.foldl (fun a h => a * 65536 + h) 0

/-- `IPv6Address._ip_int_from_string`, without the embedded-IPv4 trailing
form (not exercised by this development). -/
def parseIPv6 (cs : List Char) : Option Nat :=
  let parts := splitCharList ':' cs
  if parts.length < 3 ∨ 9 < parts.length then none
  else
    match interiorEmptyIdxs parts with
    | [] =>
      if parts.length ≠ 8 then none
      else if parts.head? = some [] ∨ parts.getLast? = some [] then none
      else (parts.mapM parseHextet).map combineHextets
    | [skipIndex] =>
      let headEmpty := parts.head? = some []
      let lastEmpty := parts.getLast? = some []
      let partsHi := if headEmpty then skipIndex - 1 else skipIndex
      let partsLo0 := parts.length - skipIndex - 1
      let partsLo := if lastEmpty then partsLo0 - 1 else partsLo0
      if headEmpty ∧ partsHi ≠ 0 then none
      else if lastEmpty ∧ partsLo ≠ 0 then none
      else if 8 ≤ partsHi + partsLo then none
      else
        let skipped := 8 - (partsHi + partsLo)
        let hiParts := parts.take partsHi
        let loParts := parts.drop (parts.length - partsLo)
        match hiParts.mapM parseHextet, loParts.mapM parseHextet with
        | some his, some los =>
          some (combineHextets (his ++ List.replicate skipped 0 ++ los))
        | _, _ => none
    | _ => none

/-- `ipaddress.ip_address` on a string: try IPv4, then IPv6. -/
def parseIpAddress (s : String) : Option IpAddr :=
  match parseIPv4 s.data with
  | some v => some ⟨.v4, v⟩
  | none => (parseIPv6 s.data).map (fun v => ⟨.v6, v⟩)

/-- `str(IPv4Address)`: dotted quad. -/
def formatIPv4 (v : Nat) : String :=
  toString (v / 16777216 % 256) ++ "." ++ toString (v / 65536 % 256) ++ "." ++
    toString (v / 256 % 256) ++ "." ++ toString (v % 256)

/-- Lowercase hexadecimal rendering with no leading zeros (`'%x' % n`). -/
def toHexString (n : Nat) : String :=
  String.mk (Nat.toDigits 16 n)

/-- The eight 16-bit groups of an IPv6 value, most significant first. -/
def hextetsOf (v : Nat) : List Nat :=
  (List.range 8).map (fun i => v / 65536 ^ (7 - i) % 65536)

/-- Longest run of zero hextets, scanning left to right
(`IPv6Address._compress_hextets` bookkeeping): returns (start, length). -/
def bestZeroRunAux : List Nat → Nat → Nat → Nat → Nat → Nat → Nat × Nat
  | [], _, bs, bl, _, _ => (bs, bl)
  | h :: t, idx, bs, bl, cs, cl =>
    if h = 0 then
      let cs' := if cl = 0 then idx else cs
      let cl' := cl + 1
      if bl < cl' then bestZeroRunAux t (idx + 1) cs' cl' cs' cl'
      else bestZeroRunAux t (idx + 1) bs bl cs' cl'
    else bestZeroRunAux t (idx + 1) bs bl 0 0

def bestZeroRun (hs : List Nat) : Nat × Nat :=
  bestZeroRunAux hs 0 0 0 0 0

/-- `str(IPv6Address)` (`_string_from_ip_int` + `_compress_hextets`):
lowercase groups, longest zero run of length at least two replaced by `::`. -/
def formatIPv6 (v : Nat) : String :=
  let hx := (hextetsOf v).map toHexString
  let (s, l) := bestZeroRun (hextetsOf v)
  if 1 < l then
    let hx1 := if s + l = 8 then hx ++ [""] else hx
    let hx2 := hx1.take s ++ [""] ++ hx1.drop (s + l)
    let hx3 := if s = 0 then "" :: hx2 else hx2
    String.intercalate ":" hx3
  else
    String.intercalate ":" hx

/-- `str()` of an address object. -/
def formatIpAddr : IpAddr → String
  | ⟨.v4, v⟩ => formatIPv4 v
  | ⟨.v6, v⟩ => formatIPv6 v

/-- `ipaddress.ip_network` given an address object and a numeric prefix with
`strict=False`: mask away the host bits; a prefix beyond the address width
is a `ValueError` (`none`). -/
def ipNetworkOfParts (a : IpAddr) (p : Nat) : Option IpNetwork :=
  if p ≤ a.version.bits then
    some ⟨a.version, a.value / 2 ^ (a.version.bits - p) * 2 ^ (a.version.bits - p), p⟩
  else none

/-- `ipaddress.ip_network(f"{ip_address}/{prefix_len}", strict=False)` on an
address string and a prefix length. -/
def ipNetworkStrictFalse (ipStr : String) (p : Nat) : Option IpNetwork :=
  (parseIpAddress ipStr).bind (fun a => ipNetworkOfParts a p)

/-- `str()` of a network object: `"address/prefixlen"`. -/
def formatIpNetwork (n : IpNetwork) : String :=
  formatIpAddr ⟨n.version, n.netAddr⟩ ++ "/" ++ toString n.prefixLen

/-- `ipaddress.ip_network(s, strict=False)` on a string argument
`"address"` or `"address/prefixlen"` (the decimal-prefix form; netmask
notations are not used by this library). -/
def parseIpNetworkArg (s : String) : Option IpNetwork :=
  match splitCharList '/' s.data with
  | [a] =>
    (parseIpAddress (String.mk a)).map (fun ad => ⟨ad.version, ad.value, ad.version.bits⟩)
  | [a, p] =>
    (parseIpAddress (String.mk a)).bind (fun ad =>
      if p.length ≠ 0 ∧ p.all Char.isDigit then
        ipNetworkOfParts ad (digitsToNat p)
      else none)
  | _ => none

/-! ## Locale fallback: `records.PlaceRecord.name` -/

/-- `dict.get` on a string-valued dict represented as an association list
with unique keys. -/
def dictGet (k : String) (d : List (String × String)) : Option String :=
  (d.find? (fun kv => kv.1 == k)).map (·.2)

/-- `k in d` for such a dict. -/
def dictHasKey (k : String) (d : List (String × String)) : Bool :=
  d.any (fun kv => kv.1 == k)

/-- A `PlaceRecord`: the locale preference list passed to the constructor
and the `names` dict. -/
structure PlaceRecord where
  locales : List String
  names : List (String × String)

/-- The `PlaceRecord` constructor: `locales` defaults to `["en"]` and
`names` to the empty dict. -/
def PlaceRecord.make (locales : Option (List String))
    (names : Option (List (String × String))) : PlaceRecord :=
  ⟨locales.getD ["en"], names.getD []⟩

/-- `PlaceRecord.name`:
`next((self.names.get(x) for x in self._locales if x in self.names), None)`. -/
def PlaceRecord.name (r : PlaceRecord) : Option String :=
  (r.locales.filter (fun x => dictHasKey x r.names)).head?.bind
    (fun x => dictGet x r.names)

/-! ## Errors (`errors.py`) and the database `Reader` (`database.py`) -/

/-- The typed error conditions raised on the database lookup path.
`addressNotFound` carries the constructor arguments of
`AddressNotFoundError`; `typeError` is Python's `TypeError`;
`resourceClosed` is the clear failure the spec requires for use after
`close()`; `valueError` is Python's `ValueError`. -/
inductive GeoErr where
  | addressNotFound (message : String) (ipAddress : Option String) (prefixLen : Option Nat)
  | typeError (message : String)
  | invalidDatabase (message : String)
  | resourceClosed
  | valueError (message : String)
deriving DecidableEq, Repr

/-- `AddressNotFoundError.network`: `None` when either the IP address or the
prefix length is absent, otherwise
`ipaddress.ip_network(f"{self.ip_address}/{self._prefix_len}", strict=False)`. -/
def addressNotFoundNetwork (ipAddress : Option String) (prefixLen : Option Nat) :
    Option IpNetwork :=
  match ipAddress, prefixLen with
  | some ip, some p => ipNetworkStrictFalse ip p
  | _, _ => none

def listIsInfixOf : List Char → List Char → Bool
  | n, [] => n.isEmpty
  | n, c :: t => List.isPrefixOf n (c :: t) || listIsInfixOf n t

/-- `a in b` on Python strings: substring test. -/
def strContains (haystack needle : String) : Bool :=
  listIsInfixOf needle.data haystack.data

/-- Modelled from the spec: the external `maxminddb` reader (not part of this
repository's sources).  The spec's Reader contract (§4.4) requires that the
open database is an immutable read-only byte source, that
`get_with_prefix_len(ip)` is a pure function of the database image returning
the decoded record (or no record on a tree miss) together with the matched
prefix length, and that after `close()` every access "fails deterministically
rather than reading freed/unmapped memory".  `ρ` is the decoded record type. -/
structure MaxMindReader (ρ : Type) where
  closed : Bool
  lookupFn : String → Option ρ × Nat

/-- Modelled from the spec: `close` releases the backing resource and
invalidates further lookups. -/
def MaxMindReader.close (db : MaxMindReader ρ) : MaxMindReader ρ :=
  { db with closed := true }

/-- Modelled from the spec: `get_with_prefix_len` on an open reader returns
the record (or none) and the prefix length; on a closed reader it fails with
the resource-closed condition. -/
def MaxMindReader.getWithPrefixLen (db : MaxMindReader ρ) (ip : String) :
    Except GeoErr (Option ρ × Nat) :=
  if db.closed then .error .resourceClosed else .ok (db.lookupFn ip)

/-- `database.Reader`: the backing `maxminddb` reader, the database type
string cached from the metadata at open time (`self._db_type`), and the
locale list. -/
structure Reader (ρ : Type) where
  dbReader : MaxMindReader ρ
  dbType : String
  locales : List String

/-- `Reader.close`: closes the backing reader (the cached `_db_type` and
locales survive). -/
def Reader.close (r : Reader ρ) : Reader ρ :=
  { r with dbReader := r.dbReader.close }

/-- `Reader._get(database_type, ip_address)`.  `caller` stands for
`inspect.stack()[2][3]`, the name of the public lookup method.  The second
component records whether the backing reader's get was invoked.  (In this
typed embedding the record, when present, is already of the record type, so
the `isinstance(record, dict)` guard of the source cannot fire.) -/
def Reader.get (r : Reader ρ) (caller : String) (databaseType : String)
    (ip : String) : Except GeoErr (ρ × Nat) × Bool :=
  if ¬ strContains r.dbType databaseType then
    (.error (.typeError ("The " ++ caller ++ " method cannot be used with the " ++
      r.dbType ++ " database")), false)
  else
    match r.dbReader.getWithPrefixLen ip with
    | .error e => (.error e, true)
    | .ok (none, prefixLen) =>
      (.error (.addressNotFound ("The address " ++ ip ++ " is not in the database.")
        (some ip) (some prefixLen)), true)
    | .ok (some record, prefixLen) => (.ok (record, prefixLen), true)

/-- The public lookup methods of `database.Reader` with the database-type
string each one passes to `_get`. -/
def lookupMethods : List (String × String) :=
  [("country", "Country"), ("city", "City"),
   ("anonymous_ip", "GeoIP2-Anonymous-IP"),
   ("anonymous_plus", "GeoIP-Anonymous-Plus"),
   ("asn", "GeoLite2-ASN"),
   ("connection_type", "GeoIP2-Connection-Type"),
   ("domain", "GeoIP2-Domain"),
   ("enterprise", "Enterprise"),
   ("isp", "GeoIP2-ISP")]

/-- The `_get` outcome of a public lookup method call (the model/record
construction performed on success by `_model_for`/`_flat_model_for` is a
pure function of this outcome). -/
def Reader.methodCall (r : Reader ρ) (methodName databaseType ip : String) :
    Except GeoErr (ρ × Nat) :=
  (r.get methodName databaseType ip).1

/-! ## The MMDB search tree, modelled from the spec (§4.2)

The binary trie over IP bits lives in the external `maxminddb` package and
is not among this repository's sources; the walk is modelled from the spec:
start at node 0, consume address bits most-significant first, at each node
read the left or right pointer per the bit value and continue / stop per the
pointer's relation to `node_count`. -/

/-- Modelled from the spec: a search tree is the node count plus, for every
node index, the two record pointer fields (left = bit 0, right = bit 1). -/
structure SearchTree where
  nodeCount : Nat
  left : Nat → Nat
  right : Nat → Nat

inductive TreeOutcome where
  | notFound
  | dataOffset (off : Nat)
deriving DecidableEq, Repr

/-- The node record pointer selected by one address bit. -/
def SearchTree.ptr (t : SearchTree) (node : Nat) (bit : Bool) : Nat :=
  if bit then t.right node else t.left node

/-- Modelled from the spec: `resolve(ip_bits)`, walking from `node` with
`consumed` bits already read.  Returns the outcome and the inclusive count
of bits consumed; `none` if the address bits run out at an internal node
(cannot happen for a well-formed database, whose tree depth is bounded by
the address width). -/
def SearchTree.resolveAux (t : SearchTree) :
    List Bool → Nat → Nat → Option (TreeOutcome × Nat)
  | [], _, _ => none
  | b :: rest, node, consumed =>
    let p := t.ptr node b
    if p < t.nodeCount then t.resolveAux rest p (consumed + 1)
    else if p = t.nodeCount then some (.notFound, consumed + 1)
    else some (.dataOffset (p - t.nodeCount - 16), consumed + 1)

def SearchTree.resolve (t : SearchTree) (bits : List Bool) :
    Option (TreeOutcome × Nat) :=
  t.resolveAux bits 0 0

/-- The sequence of `(node, bit, pointer)` record reads performed by a walk
starting at `node`. -/
def SearchTree.reads (t : SearchTree) : List Bool → Nat → List (Nat × Bool × Nat)
  | [], _ => []
  | b :: rest, node =>
    let p := t.ptr node b
    (node, b, p) :: (if p < t.nodeCount then t.reads rest p else [])

/-! ## Web-service client (`webservice.py`) -/

/-- The error object returned by `BaseClient._exception_for_error` and its
helpers.  `http` is `HTTPError` (message, status, uri); `keyError` models the
`KeyError` that propagates out of `response.headers["Content-Type"]` when
the header is absent; the remaining constructors are the typed web-service
errors. -/
inductive WsError where
  | addressNotFound (message : String)
  | authentication (message : String)
  | outOfQueries (message : String)
  | permissionRequired (message : String)
  | invalidRequest (message : String) (code : String) (status : Nat) (uri : String)
  | http (message : String) (status : Nat) (uri : String)
  | keyError (key : String)
deriving DecidableEq, Repr

def WsError.isHttpError : WsError → Bool
  | .http .. => true
  | _ => false

/-- An HTTP response as observed by the error-mapping layer: status code,
raw body, the `Content-Type` header (absent allowed), and the result of
`response.json()` (a flat string map; `none` when the body does not parse). -/
structure WsResponse where
  statusCode : Nat
  content : String
  contentType : Option String
  jsonBody : Option (List (String × String))
deriving DecidableEq, Repr

/-- `BaseClient._exception_for_web_service_error`: the enumerated code
table. -/
def exceptionForWebServiceError (message code : String) (status : Nat)
    (uri : String) : WsError :=
  if code = "IP_ADDRESS_NOT_FOUND" ∨ code = "IP_ADDRESS_RESERVED" then
    .addressNotFound message
  else if code = "ACCOUNT_ID_REQUIRED" ∨ code = "ACCOUNT_ID_UNKNOWN" ∨
      code = "AUTHORIZATION_INVALID" ∨ code = "LICENSE_KEY_REQUIRED" ∨
      code = "USER_ID_REQUIRED" ∨ code = "USER_ID_UNKNOWN" then
    .authentication message
  else if code = "INSUFFICIENT_FUNDS" ∨ code = "OUT_OF_QUERIES" then
    .outOfQueries message
  else if code = "PERMISSION_REQUIRED" then
    .permissionRequired message
  else
    .invalidRequest message code status uri

/-- `BaseClient._exception_for_4xx_status`. -/
def exceptionFor4xxStatus (r : WsResponse) (status : Nat) (uri : String) : WsError :=
  if r.content = "" then
    .http ("Received a " ++ toString status ++ " error for " ++ uri ++
      " with no body.") status uri
  else
    match r.contentType with
    | none => .keyError "Content-Type"
    | some ct =>
      if ¬ strContains ct "json" then
        .http ("Received a " ++ toString status ++ " for " ++ uri ++
          " with the following body: " ++ r.content) status uri
      else
        match r.jsonBody with
        | none =>
          .http ("Received a " ++ toString status ++ " error for " ++ uri ++
            " but it did not include the expected JSON body: ") status uri
        | some body =>
          match dictGet "error" body, dictGet "code" body with
          | some message, some code =>
            exceptionForWebServiceError message code status uri
          | _, _ =>
            .http "Response contains JSON but it does not specify code or error keys"
              status uri

/-- `BaseClient._exception_for_5xx_status`. -/
def exceptionFor5xxStatus (status : Nat) (uri : String) : WsError :=
  .http ("Received a server error (" ++ toString status ++ ") for " ++ uri)
    status uri

/-- `BaseClient._exception_for_non_200_status`. -/
def exceptionForNon200Status (status : Nat) (uri : String) : WsError :=
  .http ("Received a very surprising HTTP status (" ++ toString status ++
    ") for " ++ uri) status uri

/-- `BaseClient._exception_for_error`: dispatch on the status class.  The
mapping is a pure function of the single response — the client performs no
retry at this layer. -/
def exceptionForError (r : WsResponse) (uri : String) : WsError :=
  if 400 ≤ r.statusCode ∧ r.statusCode < 500 then
    exceptionFor4xxStatus r r.statusCode uri
  else if 500 ≤ r.statusCode ∧ r.statusCode < 600 then
    exceptionFor5xxStatus r.statusCode uri
  else
    exceptionForNon200Status r.statusCode uri

/-- The HTTP request issued by `BaseClient._response_for` via
`requests.get`: the URI, the Basic-auth pair, and the `Accept` header. -/
structure HttpRequest where
  uri : String
  authUser : String
  authPass : String
  accept : String
deriving DecidableEq, Repr

/-- The client state set up by `BaseClient.__init__`: `_account_id` is
`str(account_id)`, and `_base_uri` is `"https://%s/geoip/v2.1" % host`. -/
structure WsClient where
  accountId : String
  licenseKey : String
  baseUri : String
deriving DecidableEq, Repr

def WsClient.make (accountId : Int) (licenseKey host : String) : WsClient :=
  ⟨toString accountId, licenseKey, "https://" ++ host ++ "/geoip/v2.1"⟩

/-- The request constructed by `BaseClient._response_for(path, model_class,
ip_address)`: unless the argument is the literal `"me"`, it is first passed
through `ipaddress.ip_address` (`none` models the `ValueError` raised on an
unparseable address, in which case no request is issued), and the URI is
`"/".join([self._base_uri, path, str(ip_address)])`. -/
def WsClient.requestFor (c : WsClient) (path : String) (ipArg : String) :
    Option HttpRequest :=
  let ipStr? : Option String :=
    if ipArg = "me" then some "me"
    else (parseIpAddress ipArg).map formatIpAddr
  ipStr?.map (fun ipStr =>
    { uri := c.baseUri ++ "/" ++ path ++ "/" ++ ipStr
      authUser := c.accountId
      authPass := c.licenseKey
      accept := "application/json" })

/-! ## The model/record object layer (`_internal.py`, `models.py`)

Python objects are embedded as a class tag, the `__dict__` (an ordered
association list of attribute name and value), and the values of the
`ip_address`/`network` properties consulted by `Model.to_dict` (absent or
`None` collapse to `none`, which the source treats identically). -/

/-- The `Model` subclasses of `models.py` and the `Record` subclasses of
`records.py`, as declared in the sources. -/
inductive PyClass where
  | model
  | country
  | city
  | insights
  | enterprise
  | simpleModel
  | anonymousIP
  | asn
  | connectionType
  | domain
  | isp
  | record
  | placeRecord
  | continentRec
  | countryRec
  | representedCountryRec
  | cityRec
  | locationRec
  | postalRec
  | subdivisionRec
  | maxMindRec
  | traitsRec
deriving DecidableEq, Repr

/-- The superclass chain of each class (the class itself first), read off
the `class C(B)` declarations of `models.py` and `records.py`. -/
def PyClass.mro : PyClass → List PyClass
  | .model => [.model]
  | .country => [.country, .model]
  | .city => [.city, .country, .model]
  | .insights => [.insights, .city, .country, .model]
  | .enterprise => [.enterprise, .city, .country, .model]
  | .simpleModel => [.simpleModel, .model]
  | .anonymousIP => [.anonymousIP, .simpleModel, .model]
  | .asn => [.asn, .simpleModel, .model]
  | .connectionType => [.connectionType, .simpleModel, .model]
  | .domain => [.domain, .simpleModel, .model]
  | .isp => [.isp, .asn, .simpleModel, .model]
  | .record => [.record, .model]
  | .placeRecord => [.placeRecord, .record, .model]
  | .continentRec => [.continentRec, .placeRecord, .record, .model]
  | .countryRec => [.countryRec, .placeRecord, .record, .model]
  | .representedCountryRec => [.representedCountryRec, .countryRec, .placeRecord, .record, .model]
  | .cityRec => [.cityRec, .placeRecord, .record, .model]
  | .locationRec => [.locationRec, .record, .model]
  | .postalRec => [.postalRec, .record, .model]
  | .subdivisionRec => [.subdivisionRec, .placeRecord, .record, .model]
  | .maxMindRec => [.maxMindRec, .record, .model]
  | .traitsRec => [.traitsRec, .record, .model]

/-- `isinstance(obj, target)` for an object of class `objCls`. -/
def isinstanceOf (objCls target : PyClass) : Bool :=
  objCls.mro.contains target

mutual
inductive PyVal where
  | none
  | bool (b : Bool)
  | int (n : Int)
  | str (s : String)
  | strDict (d : List (String × String))
  | list (xs : PyValList)
  | dict (d : PyFields)
  | obj (cls : PyClass) (attrs : PyFields) (ipProp : Option String) (netProp : Option String)
inductive PyValList where
  | nil
  | cons (v : PyVal) (tail : PyValList)
inductive PyFields where
  | nil
  | cons (key : String) (v : PyVal) (tail : PyFields)
end


/-- `key.startswith("_")`. -/
def startsWithUnderscore (k : String) : Bool :=
  k.data.head? == some '_'

/-- Lexicographic order on exploded strings (used only to canonicalize dict
key order for comparison). -/
def charListLe : List Char → List Char → Bool
  | [], _ => true
  | _ :: _, [] => false
  | a :: as, b :: bs =>
    if a.toNat < b.toNat then true
    else if b.toNat < a.toNat then false
    else charListLe as bs

def keyLe (a b : String) : Bool :=
  charListLe a.data b.data

def PyFields.isNil : PyFields → Bool
  | .nil => true
  | .cons .. => false

def fieldsLookup (k : String) : PyFields → Option PyVal
  | .nil => Option.none
  | .cons k' v t => if k' = k then some v else fieldsLookup k t

def fieldsKeys : PyFields → List String
  | .nil => []
  | .cons k _ t => k :: fieldsKeys t

def fieldsAppend : PyFields → PyFields → PyFields
  | .nil, e => e
  | .cons k v t, e => .cons k v (fieldsAppend t e)

/-- Python `d[k] = v`: replace in place when the key exists, else append. -/
def fieldsSet : PyFields → String → PyVal → PyFields
  | .nil, k, v => .cons k v .nil
  | .cons k' v' t, k, v =>
    if k' = k then .cons k' v t else .cons k' v' (fieldsSet t k v)

/-- The tail of `Model.to_dict`: the `ip_address`/`network` property
handling (`result["ip_address"] = str(self.ip_address)` when the property
exists and is not `None`, likewise `network`). -/
def applyProps (base : PyFields) (ipProp netProp : Option String) : PyFields :=
  let r1 := match ipProp with
    | some s => fieldsSet base "ip_address" (.str s)
    | Option.none => base
  match netProp with
  | some s => fieldsSet r1 "network" (.str s)
  | Option.none => r1

mutual
/-- The loop body of `Model.to_dict` over `self.__dict__`: `_`-prefixed
names are skipped; a value with a `to_dict` method contributes its
(nonempty) `to_dict` (its own attribute loop plus the property tail); a
list keeps `to_dict`-able elements with nonempty `to_dict` and non-`None`
plain elements, and is kept when nonempty; a dict is kept when nonempty;
any other value is kept unless it is `None` or `False`. -/
def toDictFields : PyFields → PyFields
  | .nil => .nil
  | .cons k v t =>
    let rest := toDictFields t
    if startsWithUnderscore k then rest
    else
      match v with
      | .obj cls attrs ip net =>
        let d := applyProps (toDictFields attrs) ip net
        let _ := cls
        if d.isNil then rest else .cons k (.dict d) rest
      | .list xs =>
        match toDictList xs with
        | .nil => rest
        | ls => .cons k (.list ls) rest
      | .strDict d => if d.isEmpty then rest else .cons k (.strDict d) rest
      | .dict d => if d.isNil then rest else .cons k (.dict d) rest
      | .none => rest
      | .bool false => rest
      | other => .cons k other rest
def toDictList : PyValList → PyValList
  | .nil => .nil
  | .cons e t =>
    let rest := toDictList t
    match e with
    | .obj cls attrs ip net =>
      let d := applyProps (toDictFields attrs) ip net
      let _ := cls
      if d.isNil then rest else .cons (.dict d) rest
    | .none => rest
    | other => .cons other rest
end

/-- `Model.to_dict` on an object's `__dict__` and property values: the
attribute loop, then the property tail. -/
def objToDict (attrs : PyFields) (ipProp netProp : Option String) : PyFields :=
  applyProps (toDictFields attrs) ipProp netProp

def pyToDict : PyVal → PyFields
  | .obj _ attrs ip net => objToDict attrs ip net
  | _ => .nil

mutual
/-- Structural equality on embedded values after canonicalization (defined
below).  Raw model objects never occur inside `to_dict` results (they are
replaced by their dicts), so the `obj` case is unreachable in every use (on
raw objects Python would dispatch to `Model.__eq__`, modelled separately as
`modelEq`); it is given the structural reading for totality. -/
def pyBeqS : PyVal → PyVal → Bool
  | .none, .none => true
  | .bool a, .bool b => a == b
  | .int a, .int b => a == b
  | .str a, .str b => a == b
  | .strDict a, .strDict b => a == b
  | .list a, .list b => listBeqS a b
  | .dict a, .dict b => fieldsBeqS a b
  | .obj c a i n, .obj c' a' i' n' => c == c' && fieldsBeqS a a' && i == i' && n == n'
  | _, _ => false
def listBeqS : PyValList → PyValList → Bool
  | .nil, .nil => true
  | .cons a as, .cons b bs => pyBeqS a b && listBeqS as bs
  | _, _ => false
def fieldsBeqS : PyFields → PyFields → Bool
  | .nil, .nil => true
  | .cons k a as, .cons k' b bs => k == k' && pyBeqS a b && fieldsBeqS as bs
  | _, _ => false
end

def insertPair (p : String × String) : List (String × String) → List (String × String)
  | [] => [p]
  | q :: t => if keyLe p.1 q.1 then p :: q :: t else q :: insertPair p t

def sortPairs (d : List (String × String)) : List (String × String) :=
  d.foldr insertPair []

mutual
/-- Canonical form for comparing embedded values the way Python's `==`
compares them: dicts are unordered maps, so every dict layer is sorted by
key.  Attribute dicts and `to_dict` results never carry duplicate keys, so
key-sorting makes structural equality coincide with Python's extensional
dict equality. -/
def canonVal : PyVal → PyVal
  | .strDict d => .strDict (sortPairs d)
  | .list xs => .list (canonList xs)
  | .dict d => .dict (canonFields d)
  | v => v
def canonList : PyValList → PyValList
  | .nil => .nil
  | .cons v t => .cons (canonVal v) (canonList t)
def canonFields : PyFields → PyFields
  | .nil => .nil
  | .cons k v t => insertField k (canonVal v) (canonFields t)
def insertField (k : String) (v : PyVal) : PyFields → PyFields
  | .nil => .cons k v .nil
  | .cons k' v' t =>
    if keyLe k k' then .cons k v (.cons k' v' t) else .cons k' v' (insertField k v t)
end

/-- Python `==` on two `to_dict` results (dict equality is extensional). -/
def fieldsBeqExt (a b : PyFields) : Bool :=
  fieldsBeqS (canonFields a) (canonFields b)

/-- `Model.__eq__`:
`isinstance(other, self.__class__) and self.to_dict() == other.to_dict()`. -/
def modelEq (a b : PyVal) : Bool :=
  match a, b with
  | .obj ca _ _ _, .obj cb _ _ _ =>
    isinstanceOf cb ca && fieldsBeqExt (pyToDict a) (pyToDict b)
  | _, _ => false

def PyVal.objClass : PyVal → Option PyClass
  | .obj c _ _ _ => some c
  | _ => Option.none

def optStrVal : Option String → PyVal
  | some s => .str s
  | Option.none => .none

def optIntVal : Option Int → PyVal
  | some n => .int n
  | Option.none => .none

def optNatVal : Option Nat → PyVal
  | some n => .int n
  | Option.none => .none

/-- `SimpleModel.__init__(ip_address, network, prefix_len)` (`models.py`):
when `network` is truthy it is parsed with `ipaddress.ip_network(network,
False)` (a `ValueError` yields `none`) and `_prefix_len` is its prefix
length, else `_network` is `None` and `_prefix_len` is the argument;
`_ip_address` stores the argument.  Returns the `__dict__` so far together
with the values of the `ip_address` and `network` properties (the
`ip_address` property parses the stored string, so an unparseable address
string also yields `none` here rather than at first property access). -/
def simpleModelAttrs (ipAddress : String) (network : Option String)
    (prefixLen : Option Nat) : Option (PyFields × String × Option String) :=
  (parseIpAddress ipAddress).bind (fun addr =>
    let noNetworkCase : PyFields × String × Option String :=
      (PyFields.cons "_network" .none
        (.cons "_prefix_len" (optNatVal prefixLen)
          (.cons "_ip_address" (.str ipAddress) .nil)),
       formatIpAddr addr,
       (prefixLen.bind (fun pl => ipNetworkOfParts addr pl)).map formatIpNetwork)
    match network with
    | some ns =>
      if ns ≠ "" then
        (parseIpNetworkArg ns).map (fun n =>
          (PyFields.cons "_network" (.str (formatIpNetwork n))
            (.cons "_prefix_len" (.int n.prefixLen)
              (.cons "_ip_address" (.str ipAddress) .nil)),
           formatIpAddr addr, some (formatIpNetwork n)))
      else some noNetworkCase
    | Option.none => some noNetworkCase)

/-- `models.ASN.__init__`. -/
def buildASN (ipAddress : String) (network : Option String)
    (prefixLen : Option Nat) (autonomousSystemNumber : Option Int)
    (autonomousSystemOrganization : Option String) : Option PyVal :=
  (simpleModelAttrs ipAddress network prefixLen).map (fun (base, ipProp, netProp) =>
    .obj .asn
      (fieldsAppend base
        (.cons "autonomous_system_number" (optIntVal autonomousSystemNumber)
          (.cons "autonomous_system_organization" (optStrVal autonomousSystemOrganization)
            .nil)))
      (some ipProp) netProp)

/-- `models.ISP.__init__`. -/
def buildISP (ipAddress : String) (network : Option String)
    (prefixLen : Option Nat) (autonomousSystemNumber : Option Int)
    (autonomousSystemOrganization : Option String) (ispName : Option String)
    (mobileCountryCode mobileNetworkCode organization : Option String) :
    Option PyVal :=
  (simpleModelAttrs ipAddress network prefixLen).map (fun (base, ipProp, netProp) =>
    .obj .isp
      (fieldsAppend base
        (.cons "autonomous_system_number" (optIntVal autonomousSystemNumber)
          (.cons "autonomous_system_organization" (optStrVal autonomousSystemOrganization)
            (.cons "isp" (optStrVal ispName)
              (.cons "mobile_country_code" (optStrVal mobileCountryCode)
                (.cons "mobile_network_code" (optStrVal mobileNetworkCode)
                  (.cons "organization" (optStrVal organization) .nil)))))))
      (some ipProp) netProp)

/-- `models.AnonymousIP.__init__` (each flag defaults to `False`). -/
def buildAnonymousIP (ipAddress : String) (network : Option String)
    (prefixLen : Option Nat)
    (isAnonymous isAnonymousVpn isHostingProvider isPublicProxy
      isResidentialProxy isTorExitNode : Bool) : Option PyVal :=
  (simpleModelAttrs ipAddress network prefixLen).map (fun (base, ipProp, netProp) =>
    .obj .anonymousIP
      (fieldsAppend base
        (.cons "is_anonymous" (.bool isAnonymous)
          (.cons "is_anonymous_vpn" (.bool isAnonymousVpn)
            (.cons "is_hosting_provider" (.bool isHostingProvider)
              (.cons "is_public_proxy" (.bool isPublicProxy)
                (.cons "is_residential_proxy" (.bool isResidentialProxy)
                  (.cons "is_tor_exit_node" (.bool isTorExitNode) .nil)))))))
      (some ipProp) netProp)

/-- `models.ConnectionType.__init__`. -/
def buildConnectionType (ipAddress : String) (network : Option String)
    (prefixLen : Option Nat) (connectionType : Option String) : Option PyVal :=
  (simpleModelAttrs ipAddress network prefixLen).map (fun (base, ipProp, netProp) =>
    .obj .connectionType
      (fieldsAppend base (.cons "connection_type" (optStrVal connectionType) .nil))
      (some ipProp) netProp)

/-- `models.Domain.__init__`. -/
def buildDomain (ipAddress : String) (network : Option String)
    (prefixLen : Option Nat) (domainName : Option String) : Option PyVal :=
  (simpleModelAttrs ipAddress network prefixLen).map (fun (base, ipProp, netProp) =>
    .obj .domain
      (fieldsAppend base (.cons "domain" (optStrVal domainName) .nil))
      (some ipProp) netProp)

/-! ### Decoded-record data and the record constructors of the model path

The structures below are the decoded MMDB maps handed to the model
constructors as `**record`: an `Option` field is a key that may be absent
(absent keys leave the constructor's keyword default in place, which for
the boolean flags is `False`, so those are plain `Bool`).  Float-valued
payload fields (`latitude`, `longitude`, `ip_risk_snapshot`,
`static_ip_score`) are outside this embedding — records carrying them are
not modelled, so the corresponding attributes are always their default
`None`.  The record classes are from `src/src/geoip2/records.py`, the same
tree as the cited `Reader._model_for`. -/

structure ContinentData where
  code : Option String
  geonameId : Option Int
  names : Option (List (String × String))

structure CountryData where
  confidence : Option Int
  geonameId : Option Int
  isInEuropeanUnion : Bool
  isoCode : Option String
  names : Option (List (String × String))

/-- `typ` stands for the `type` keyword parameter. -/
structure RepresentedCountryData where
  confidence : Option Int
  geonameId : Option Int
  isInEuropeanUnion : Bool
  isoCode : Option String
  names : Option (List (String × String))
  typ : Option String

structure CityRecData where
  confidence : Option Int
  geonameId : Option Int
  names : Option (List (String × String))

structure LocationData where
  averageIncome : Option Int
  accuracyRadius : Option Int
  metroCode : Option Int
  populationDensity : Option Int
  timeZone : Option String

structure MaxMindData where
  queriesRemaining : Option Int

structure PostalData where
  code : Option String
  confidence : Option Int

structure SubdivisionData where
  confidence : Option Int
  geonameId : Option Int
  isoCode : Option String
  names : Option (List (String × String))

structure TraitsData where
  autonomousSystemNumber : Option Int
  autonomousSystemOrganization : Option String
  connectionType : Option String
  domainName : Option String
  isAnonymous : Bool
  isAnonymousProxy : Bool
  isAnonymousVpn : Bool
  isAnycast : Bool
  isHostingProvider : Bool
  isLegitimateProxy : Bool
  isPublicProxy : Bool
  isResidentialProxy : Bool
  isSatelliteProvider : Bool
  isTorExitNode : Bool
  isp : Option String
  mobileCountryCode : Option String
  mobileNetworkCode : Option String
  organization : Option String
  userType : Option String
  userCount : Option Int

/-- The decoded record of one database lookup: a dict that may carry the
sub-maps consumed by the `_model_for` models and the flat keys consumed by
the `_flat_model_for` models (constructor `**_` swallows whatever a given
model does not consume). -/
structure DbRecord where
  continent : Option ContinentData
  country : Option CountryData
  maxmind : Option MaxMindData
  registeredCountry : Option CountryData
  representedCountry : Option RepresentedCountryData
  traits : Option TraitsData
  city : Option CityRecData
  location : Option LocationData
  postal : Option PostalData
  subdivisions : Option (List SubdivisionData)
  autonomousSystemNumber : Option Int
  autonomousSystemOrganization : Option String
  ispName : Option String
  mobileCountryCode : Option String
  mobileNetworkCode : Option String
  organization : Option String
  connectionType : Option String
  domainName : Option String
  isAnonymous : Bool
  isAnonymousVpn : Bool
  isHostingProvider : Bool
  isPublicProxy : Bool
  isResidentialProxy : Bool
  isTorExitNode : Bool

def pyStrList : List String → PyValList
  | [] => .nil
  | s :: t => .cons (.str s) (pyStrList t)

/-- `records.Continent.__init__`: `code`, `geoname_id`, then
`PlaceRecord.__init__` sets `_locales` and `names` (empty dict default);
`**(continent or {})` gives every parameter its default when the sub-map is
absent. -/
def buildContinentRec (locales : List String) (d : Option ContinentData) : PyVal :=
  let dd := d.getD ⟨Option.none, Option.none, Option.none⟩
  .obj .continentRec
    (.cons "code" (optStrVal dd.code)
      (.cons "geoname_id" (optIntVal dd.geonameId)
        (.cons "_locales" (.list (pyStrList locales))
          (.cons "names" (.strDict (dd.names.getD [])) .nil))))
    Option.none Option.none

/-- `records.Country.__init__`: `confidence`, `geoname_id`,
`is_in_european_union` (default `False`), `iso_code`, then the
`PlaceRecord` attributes. -/
def buildCountryRec (locales : List String) (d : Option CountryData) : PyVal :=
  let dd := d.getD ⟨Option.none, Option.none, false, Option.none, Option.none⟩
  .obj .countryRec
    (.cons "confidence" (optIntVal dd.confidence)
      (.cons "geoname_id" (optIntVal dd.geonameId)
        (.cons "is_in_european_union" (.bool dd.isInEuropeanUnion)
          (.cons "iso_code" (optStrVal dd.isoCode)
            (.cons "_locales" (.list (pyStrList locales))
              (.cons "names" (.strDict (dd.names.getD [])) .nil))))))
    Option.none Option.none

/-- `records.RepresentedCountry.__init__`: sets `type` first, then the
`Country` attributes via `super()`. -/
def buildRepresentedCountryRec (locales : List String)
    (d : Option RepresentedCountryData) : PyVal :=
  let dd := d.getD ⟨Option.none, Option.none, false, Option.none, Option.none, Option.none⟩
  .obj .representedCountryRec
    (.cons "type" (optStrVal dd.typ)
      (.cons "confidence" (optIntVal dd.confidence)
        (.cons "geoname_id" (optIntVal dd.geonameId)
          (.cons "is_in_european_union" (.bool dd.isInEuropeanUnion)
            (.cons "iso_code" (optStrVal dd.isoCode)
              (.cons "_locales" (.list (pyStrList locales))
                (.cons "names" (.strDict (dd.names.getD [])) .nil)))))))
    Option.none Option.none

/-- `records.City.__init__` (the city record inside the City model). -/
def buildCityRec (locales : List String) (d : Option CityRecData) : PyVal :=
  let dd := d.getD ⟨Option.none, Option.none, Option.none⟩
  .obj .cityRec
    (.cons "confidence" (optIntVal dd.confidence)
      (.cons "geoname_id" (optIntVal dd.geonameId)
        (.cons "_locales" (.list (pyStrList locales))
          (.cons "names" (.strDict (dd.names.getD [])) .nil))))
    Option.none Option.none

/-- `records.Location.__init__`; the float-typed `latitude`/`longitude`
attributes keep their `None` default (see the section comment). -/
def buildLocationRec (d : Option LocationData) : PyVal :=
  let dd := d.getD ⟨Option.none, Option.none, Option.none, Option.none, Option.none⟩
  .obj .locationRec
    (.cons "average_income" (optIntVal dd.averageIncome)
      (.cons "accuracy_radius" (optIntVal dd.accuracyRadius)
        (.cons "latitude" .none
          (.cons "longitude" .none
            (.cons "metro_code" (optIntVal dd.metroCode)
              (.cons "population_density" (optIntVal dd.populationDensity)
                (.cons "time_zone" (optStrVal dd.timeZone) .nil)))))))
    Option.none Option.none

/-- `records.MaxMind.__init__`. -/
def buildMaxMindRec (d : Option MaxMindData) : PyVal :=
  let dd := d.getD ⟨Option.none⟩
  .obj .maxMindRec
    (.cons "queries_remaining" (optIntVal dd.queriesRemaining) .nil)
    Option.none Option.none

/-- `records.Postal.__init__`. -/
def buildPostalRec (d : Option PostalData) : PyVal :=
  let dd := d.getD ⟨Option.none, Option.none⟩
  .obj .postalRec
    (.cons "code" (optStrVal dd.code)
      (.cons "confidence" (optIntVal dd.confidence) .nil))
    Option.none Option.none

/-- `records.Subdivision.__init__`. -/
def buildSubdivisionRec (locales : List String) (d : SubdivisionData) : PyVal :=
  .obj .subdivisionRec
    (.cons "confidence" (optIntVal d.confidence)
      (.cons "geoname_id" (optIntVal d.geonameId)
        (.cons "iso_code" (optStrVal d.isoCode)
          (.cons "_locales" (.list (pyStrList locales))
            (.cons "names" (.strDict (d.names.getD [])) .nil)))))
    Option.none Option.none

/-- `records.Subdivisions.__new__`: a tuple of `Subdivision` records built
from the listed sub-maps (`Model.to_dict` treats it through its
list/tuple branch). -/
def buildSubdivisionList (locales : List String) : List SubdivisionData → PyValList
  | [] => .nil
  | d :: t => .cons (buildSubdivisionRec locales d) (buildSubdivisionList locales t)

/-- `records.Traits.__init__` (new variant, cf. `TraitsState`): attributes
in constructor order, `_ip_address` holding the raw argument and `_network`
`None` on this path (the decoded map carries no `network` key).  The
`ip_address`/`network` property values consumed by `to_dict` are the
canonical string forms; an unparseable `ip_address` string, which the
source would reject at first property access, is rejected here
(cf. `simpleModelAttrs`). -/
def buildTraitsRec (d : Option TraitsData) (ipAddress : Option String)
    (prefixLen : Option Nat) : Option PyVal :=
  let dd := d.getD ⟨Option.none, Option.none, Option.none, Option.none, false, false,
    false, false, false, false, false, false, false, false, Option.none, Option.none,
    Option.none, Option.none, Option.none, Option.none⟩
  let parsedIp? : Option (Option IpAddr) :=
    match ipAddress with
    | some s => (parseIpAddress s).map some
    | Option.none => some Option.none
  parsedIp?.map (fun parsedIp =>
    .obj .traitsRec
      (.cons "autonomous_system_number" (optIntVal dd.autonomousSystemNumber)
        (.cons "autonomous_system_organization" (optStrVal dd.autonomousSystemOrganization)
          (.cons "connection_type" (optStrVal dd.connectionType)
            (.cons "domain" (optStrVal dd.domainName)
              (.cons "ip_risk_snapshot" .none
                (.cons "is_anonymous" (.bool dd.isAnonymous)
                  (.cons "is_anonymous_proxy" (.bool dd.isAnonymousProxy)
                    (.cons "is_anonymous_vpn" (.bool dd.isAnonymousVpn)
                      (.cons "is_anycast" (.bool dd.isAnycast)
                        (.cons "is_hosting_provider" (.bool dd.isHostingProvider)
                          (.cons "is_legitimate_proxy" (.bool dd.isLegitimateProxy)
                            (.cons "is_public_proxy" (.bool dd.isPublicProxy)
                              (.cons "is_residential_proxy" (.bool dd.isResidentialProxy)
                                (.cons "is_satellite_provider" (.bool dd.isSatelliteProvider)
                                  (.cons "is_tor_exit_node" (.bool dd.isTorExitNode)
                                    (.cons "isp" (optStrVal dd.isp)
                                      (.cons "mobile_country_code" (optStrVal dd.mobileCountryCode)
                                        (.cons "mobile_network_code" (optStrVal dd.mobileNetworkCode)
                                          (.cons "organization" (optStrVal dd.organization)
                                            (.cons "static_ip_score" .none
                                              (.cons "user_type" (optStrVal dd.userType)
                                                (.cons "user_count" (optIntVal dd.userCount)
                                                  (.cons "_ip_address" (optStrVal ipAddress)
                                                    (.cons "_network" .none
                                                      (.cons "_prefix_len" (optNatVal prefixLen)
                                                        .nil)))))))))))))))))))))))))
      (parsedIp.map formatIpAddr)
      ((parsedIp.bind (fun a => prefixLen.bind (fun pl => ipNetworkOfParts a pl))).map
        formatIpNetwork))

/-- `models.Country.__init__` (`src/geoip2/models.py`; its signature
`(locales, *, continent=..., ip_address=..., prefix_len=..., ...)` is the
one `Reader._model_for` calls): `_locales`, then the nested records in
declaration order, with `ip_address`/`prefix_len` injected into the traits
dict when not `None`. -/
def buildCountryModelFields (locales : List String) (ipAddress : Option String)
    (prefixLen : Option Nat) (rec : DbRecord) : Option PyFields :=
  (buildTraitsRec rec.traits ipAddress prefixLen).map (fun traitsObj =>
    .cons "_locales" (.list (pyStrList locales))
      (.cons "continent" (buildContinentRec locales rec.continent)
        (.cons "country" (buildCountryRec locales rec.country)
          (.cons "registered_country" (buildCountryRec locales rec.registeredCountry)
            (.cons "represented_country"
              (buildRepresentedCountryRec locales rec.representedCountry)
              (.cons "maxmind" (buildMaxMindRec rec.maxmind)
                (.cons "traits" traitsObj .nil)))))))

def buildCountryModel (locales : List String) (ipAddress : Option String)
    (prefixLen : Option Nat) (rec : DbRecord) : Option PyVal :=
  (buildCountryModelFields locales ipAddress prefixLen rec).map
    (fun a => .obj .country a Option.none Option.none)

/-- `models.City.__init__`: the `Country` attributes via `super()`, then
`city`, `location`, `postal` and the `subdivisions` tuple.  `Enterprise`
(and `Insights`) inherit this constructor unchanged, so the class tag is a
parameter. -/
def buildCityModel (cls : PyClass) (locales : List String) (ipAddress : Option String)
    (prefixLen : Option Nat) (rec : DbRecord) : Option PyVal :=
  (buildCountryModelFields locales ipAddress prefixLen rec).map (fun base =>
    .obj cls
      (fieldsAppend base
        (.cons "city" (buildCityRec locales rec.city)
          (.cons "location" (buildLocationRec rec.location)
            (.cons "postal" (buildPostalRec rec.postal)
              (.cons "subdivisions"
                (.list (buildSubdivisionList locales (rec.subdivisions.getD [])))
                .nil)))))
      Option.none Option.none)

/-- The public lookup methods of the new `database.Reader` whose model
classes are under `src/` (the ninth method, `anonymous_plus`, calls
`_flat_model_for` with `models.AnonymousPlus`, a class not among the
sources; it is covered by the constructor-generic `lookupWith` below). -/
inductive LookupMethod where
  | country
  | city
  | enterprise
  | anonymousIP
  | asn
  | connectionType
  | domain
  | isp
deriving DecidableEq, Repr

/-- The `inspect.stack()` caller name of each method. -/
def LookupMethod.callerName : LookupMethod → String
  | .country => "country"
  | .city => "city"
  | .enterprise => "enterprise"
  | .anonymousIP => "anonymous_ip"
  | .asn => "asn"
  | .connectionType => "connection_type"
  | .domain => "domain"
  | .isp => "isp"

/-- The database-type string each method passes to `_get`. -/
def LookupMethod.databaseType : LookupMethod → String
  | .country => "Country"
  | .city => "City"
  | .enterprise => "Enterprise"
  | .anonymousIP => "GeoIP2-Anonymous-IP"
  | .asn => "GeoLite2-ASN"
  | .connectionType => "GeoIP2-Connection-Type"
  | .domain => "GeoIP2-Domain"
  | .isp => "GeoIP2-ISP"

/-- The model construction each method performs on `_get` success:
`model_class(self._locales, ip_address=..., prefix_len=..., **record)` for
the `_model_for` methods, `model_class(ip_address, prefix_len=...,
**record)` for the `_flat_model_for` methods. -/
def LookupMethod.builder :
    LookupMethod → List String → String → Nat → DbRecord → Option PyVal
  | .country => fun ls ip pl rec => buildCountryModel ls (some ip) (some pl) rec
  | .city => fun ls ip pl rec => buildCityModel .city ls (some ip) (some pl) rec
  | .enterprise => fun ls ip pl rec => buildCityModel .enterprise ls (some ip) (some pl) rec
  | .anonymousIP => fun _ ip pl rec =>
      buildAnonymousIP ip Option.none (some pl) rec.isAnonymous rec.isAnonymousVpn
        rec.isHostingProvider rec.isPublicProxy rec.isResidentialProxy rec.isTorExitNode
  | .asn => fun _ ip pl rec =>
      buildASN ip Option.none (some pl) rec.autonomousSystemNumber
        rec.autonomousSystemOrganization
  | .connectionType => fun _ ip pl rec =>
      buildConnectionType ip Option.none (some pl) rec.connectionType
  | .domain => fun _ ip pl rec => buildDomain ip Option.none (some pl) rec.domainName
  | .isp => fun _ ip pl rec =>
      buildISP ip Option.none (some pl) rec.autonomousSystemNumber
        rec.autonomousSystemOrganization rec.ispName rec.mobileCountryCode
        rec.mobileNetworkCode rec.organization

/-- The shared shape of `_model_for`/`_flat_model_for`: `_get` with the
method's caller name and database-type string, then the model construction
— a pure function of the locales, address, prefix length and record
(`build` is the constructor; quantifying over it also covers
`anonymous_plus`, whose model class is absent from the sources).  No
statement of either source method assigns to the reader, so the reader is
returned unchanged. -/
def Reader.lookupWith (r : Reader DbRecord)
    (build : List String → String → Nat → DbRecord → Option PyVal)
    (caller databaseType ip : String) : Except GeoErr PyVal × Reader DbRecord :=
  match (r.get caller databaseType ip).1 with
  | .error e => (.error e, r)
  | .ok (rec, prefixLen) =>
    match build r.locales ip prefixLen rec with
    | some m => (.ok m, r)
    | Option.none => (.error (.valueError ("invalid IP address: " ++ ip)), r)

/-- One public lookup method call of `database.Reader`. -/
def Reader.callLookup (r : Reader DbRecord) (m : LookupMethod) (ip : String) :
    Except GeoErr PyVal × Reader DbRecord :=
  r.lookupWith m.builder m.callerName m.databaseType ip

/-! ## `records.Traits` network handling (`records.py`) -/

/-- The lookup-relevant state of a `Traits` record: `_network` (parsed
eagerly in `__init__` when a network string is given, or filled in by the
lazy caching of the `network` property), `_ip_address` (held parsed; the
`ip_address` property parses and caches the stored string), and
`_prefix_len`. -/
structure TraitsState where
  network : Option IpNetwork
  ipAddress : Option IpAddr
  prefixLen : Option Nat
deriving DecidableEq, Repr

/-- `Traits.__init__`: `_network` is `None` when no network string is given,
else `ipaddress.ip_network(network, strict=False)` (an invalid string raises
`ValueError`, modelled as `none`); likewise an unparseable `ip_address`
string, which the source would reject at first `ip_address` property access,
is rejected here. -/
def TraitsState.make (network ipAddress : Option String) (prefixLen : Option Nat) :
    Option TraitsState :=
  let parsedIp? : Option (Option IpAddr) :=
    match ipAddress with
    | some s => (parseIpAddress s).map some
    | Option.none => some Option.none
  parsedIp?.bind (fun ip =>
    match network with
    | some ns => (parseIpNetworkArg ns).map (fun n => ⟨some n, ip, prefixLen⟩)
    | Option.none => some ⟨Option.none, ip, prefixLen⟩)

/-- The `Traits.network` property: return the cached `_network` if set; else
`None` when `ip_address` or `_prefix_len` is missing; else
`ipaddress.ip_network(f"{ip_address}/{prefix_len}", strict=False)`, cached
into `_network`.  A `ValueError` from `ip_network` (prefix length beyond the
address width) is `.error`. -/
def TraitsState.networkProp (t : TraitsState) :
    Except String (Option IpNetwork) × TraitsState :=
  match t.network with
  | some n => (.ok (some n), t)
  | Option.none =>
    match t.ipAddress, t.prefixLen with
    | some ip, some pl =>
      match ipNetworkOfParts ip pl with
      | some n => (.ok (some n), { t with network := some n })
      | Option.none =>
        (.error (formatIpAddr ip ++ "/" ++ toString pl ++
          " does not appear to be an IPv4 or IPv6 network"), t)
    | _, _ => (.ok Option.none, t)

/-! ## Concrete fixtures (used to instantiate the theorems below) -/

instance {ε α : Type} [DecidableEq ε] [DecidableEq α] : DecidableEq (Except ε α) :=
  fun a b =>
    match a, b with
    | .ok x, .ok y =>
      if h : x = y then isTrue (h ▸ rfl) else isFalse (fun hc => h (Except.ok.inj hc))
    | .error x, .error y =>
      if h : x = y then isTrue (h ▸ rfl) else isFalse (fun hc => h (Except.error.inj hc))
    | .ok _, .error _ => isFalse (fun hc => Except.noConfusion hc)
    | .error _, .ok _ => isFalse (fun hc => Except.noConfusion hc)

def optModelEq (a b : Option PyVal) : Option Bool :=
  a.bind (fun x => b.map (fun y => modelEq x y))

/-- An open City-database reader over a backing image in which every lookup
is a tree miss matched at prefix length 8 (the spec's `10.10.10.10` in a
database whose largest empty covering network is `10.0.0.0/8`). -/
def cityMissReader : Reader Unit :=
  { dbReader := { closed := false, lookupFn := fun _ => (Option.none, 8) }
    dbType := "GeoLite2-City"
    locales := ["en"] }

/-- The spec's `81.2.69.160` City-database fixture: a decoded record with a
`GB` country, Europe continent, London city and subdivisions. -/
def gbDbRecord : DbRecord :=
  { continent := some ⟨some "EU", some 6255148, some [("en", "Europe")]⟩
    country := some ⟨Option.none, some 2635167, false, some "GB",
      some [("en", "United Kingdom")]⟩
    maxmind := Option.none
    registeredCountry := some ⟨Option.none, some 6252001, false, some "US",
      some [("en", "United States")]⟩
    representedCountry := Option.none
    traits := Option.none
    city := some ⟨Option.none, some 2643743, some [("en", "London")]⟩
    location := some ⟨Option.none, some 100, Option.none, Option.none,
      some "Europe/London"⟩
    postal := Option.none
    subdivisions := some [⟨Option.none, some 6269131, some "ENG",
      some [("en", "England")]⟩]
    autonomousSystemNumber := Option.none
    autonomousSystemOrganization := Option.none
    ispName := Option.none
    mobileCountryCode := Option.none
    mobileNetworkCode := Option.none
    organization := Option.none
    connectionType := Option.none
    domainName := Option.none
    isAnonymous := false
    isAnonymousVpn := false
    isHostingProvider := false
    isPublicProxy := false
    isResidentialProxy := false
    isTorExitNode := false }

/-- An open GeoIP2-City reader whose backing image resolves every address to
`gbDbRecord` at prefix length 22. -/
def cityFixtureReader : Reader DbRecord :=
  { dbReader := { closed := false, lookupFn := fun _ => (some gbDbRecord, 22) }
    dbType := "GeoIP2-City"
    locales := ["en"] }

/-- The City model `reader.city("81.2.69.160")` builds on that fixture. -/
def gbCityModel : PyVal :=
  (buildCityModel .city ["en"] (some "81.2.69.160") (some 22) gbDbRecord).getD .none

/-- A search tree with two nodes: node 0's 0-branch goes to node 1, its
1-branch is a data pointer (20 ↦ offset 2); node 1's both branches miss. -/
def twoNodeTree : SearchTree :=
  { nodeCount := 2
    left := fun n => if n = 0 then 1 else 2
    right := fun n => if n = 0 then 20 else 2 }

/-- A 402 response with a structured `{code, error}` body. -/
def outOfQueriesResponse : WsResponse :=
  { statusCode := 402
    content := "\x7bcode: OUT_OF_QUERIES, error: out of queries\x7d"
    contentType := some "application/json"
    jsonBody := some [("code", "OUT_OF_QUERIES"), ("error", "out of queries")] }

/-- A 404 response with a nonempty body but no `Content-Type` header. -/
def noContentTypeResponse : WsResponse :=
  { statusCode := 404
    content := "\x7b\x7d"
    contentType := Option.none
    jsonBody := some [] }

def clientFixture : WsClient :=
  WsClient.make 42 "abcdef123456" "geoip.maxmind.com"

/-- A small `__dict__` in the shape of a `records.Country` record: a
`_`-prefixed attribute, a `None`-valued attribute and an empty names dict. -/
def demoAttrs : PyFields :=
  .cons "_locales" (.str "en")
    (.cons "iso_code" .none
      (.cons "names" (.strDict []) .nil))

/-! ## Helper lemmas -/

theorem filter_head?_eq_find? {α : Type} (p : α → Bool) (L : List α) :
    (L.filter p).head? = L.find? p := by
  induction L with
  | nil => rfl
  | cons x xs ih =>
    by_cases h : p x
    · simp [List.filter_cons, h]
    · simp [List.filter_cons, h, ih]

theorem dictGet_isSome_of_hasKey (k : String) (N : List (String × String))
    (h : dictHasKey k N = true) : (dictGet k N).isSome = true := by
  induction N with
  | nil => simp [dictHasKey] at h
  | cons kv t ih =>
    unfold dictHasKey at h ih
    unfold dictGet at ih ⊢
    rw [List.any_cons] at h
    by_cases hk : (kv.1 == k) = true
    · have hk' : (fun x : String × String => x.1 == k) kv = true := hk
      rw [List.find?_cons_of_pos t hk']
      rfl
    · have hk' : ¬ (fun x : String × String => x.1 == k) kv = true := hk
      rw [Bool.not_eq_true] at hk
      rw [hk, Bool.false_or] at h
      rw [List.find?_cons_of_neg t hk']
      exact ih h

/-! ## Claim theorems -/

/-- C5: For every `PlaceRecord` constructed with locale preference list `L`
and names map `N`, the `name` property returns `N[l]` for the first locale
`l` in `L` (in order) that is a key of `N` (and such a value is always
present), and returns `None` when no locale in `L` is a key of `N`. -/
theorem placeRecord_name_locale_fallback (L : List String) (N : List (String × String)) :
    (∀ l, L.find? (fun x => dictHasKey x N) = some l →
      (PlaceRecord.mk L N).name = dictGet l N ∧ (dictGet l N).isSome = true) ∧
    (L.find? (fun x => dictHasKey x N) = Option.none →
      (PlaceRecord.mk L N).name = Option.none) := by
  constructor
  · intro l hl
    have hkey : dictHasKey l N = true := by simpa using List.find?_some hl
    refine ⟨?_, dictGet_isSome_of_hasKey l N hkey⟩
    simp [PlaceRecord.name, filter_head?_eq_find?, hl]
  · intro hl
    simp [PlaceRecord.name, filter_head?_eq_find?, hl]

theorem placeRecord_name_locale_fallback_witness :
    (PlaceRecord.mk ["de", "en"] [("en", "United Kingdom")]).name =
      some "United Kingdom" := by
  have h := (placeRecord_name_locale_fallback ["de", "en"]
    [("en", "United Kingdom")]).1 "en" (by decide)
  exact h.1.trans (by decide)

/-- C2: During a search-tree walk, for every node record pointer value `p`
read: if `p < node_count` the walk continues at node index `p`; if
`p = node_count` the lookup is a miss (no data), consuming the bit read; if
`p > node_count` the walk terminates with data-section offset
`p − node_count − 16`.  (Search tree modelled from the spec, §4.2.) -/
theorem searchTree_pointer_trichotomy (t : SearchTree) (b : Bool) (rest : List Bool)
    (node consumed : Nat) :
    (t.ptr node b < t.nodeCount →
      t.resolveAux (b :: rest) node consumed =
        t.resolveAux rest (t.ptr node b) (consumed + 1)) ∧
    (t.ptr node b = t.nodeCount →
      t.resolveAux (b :: rest) node consumed = some (.notFound, consumed + 1)) ∧
    (t.nodeCount < t.ptr node b →
      t.resolveAux (b :: rest) node consumed =
        some (.dataOffset (t.ptr node b - t.nodeCount - 16), consumed + 1)) := by
  refine ⟨fun h => ?_, fun h => ?_, fun h => ?_⟩
  · simp [SearchTree.resolveAux, h]
  · have h1 : ¬ t.ptr node b < t.nodeCount := by omega
    simp [SearchTree.resolveAux, h1, h]
  · have h1 : ¬ t.ptr node b < t.nodeCount := by omega
    have h2 : ¬ t.ptr node b = t.nodeCount := by omega
    simp [SearchTree.resolveAux, h1, h2]

theorem searchTree_pointer_trichotomy_witness :
    twoNodeTree.nodeCount < twoNodeTree.ptr 0 true ∧
    twoNodeTree.resolveAux [true] 0 0 = some (.dataOffset 2, 1) := by
  refine ⟨by decide, ?_⟩
  have h := (searchTree_pointer_trichotomy twoNodeTree true [] 0 0).2.2 (by decide)
  exact h.trans (by decide)

/-- C8: For every reader and lookup, if the method's required database-type
string is not a substring of the opened database's `database_type` metadata,
the call raises a `TypeError` naming the calling method and the database
type, and the backing reader's get is never invoked. -/
theorem reader_type_mismatch_skips_lookup {ρ : Type} (r : Reader ρ)
    (caller databaseType ip : String)
    (h : strContains r.dbType databaseType = false) :
    r.get caller databaseType ip =
      (.error (.typeError ("The " ++ caller ++ " method cannot be used with the " ++
        r.dbType ++ " database")), false) := by
  simp [Reader.get, h]

theorem reader_type_mismatch_skips_lookup_witness :
    strContains cityMissReader.dbType "GeoLite2-ASN" = false ∧
    cityMissReader.get "asn" "GeoLite2-ASN" "1.2.3.4" =
      (.error (.typeError "The asn method cannot be used with the GeoLite2-City database"),
        false) := by
  refine ⟨by decide, ?_⟩
  have h := reader_type_mismatch_skips_lookup cityMissReader "asn" "GeoLite2-ASN"
    "1.2.3.4" (by decide)
  exact h.trans (by decide)

/-- C1: A lookup whose address resolves to a tree miss raises an
`AddressNotFoundError` carrying the looked-up IP address string and the
matched prefix length, whose `network` property is
`ipaddress.ip_network(f"{ip_address}/{prefix_len}", strict=False)` — the
address with its host bits below the prefix masked away; and the `network`
property is `None` whenever either the IP address or the prefix length is
absent. -/
theorem address_not_found_error_network {ρ : Type} (r : Reader ρ)
    (caller databaseType ip : String) (pl : Nat) (a : IpAddr)
    (hty : strContains r.dbType databaseType = true)
    (hopen : r.dbReader.closed = false)
    (hmiss : r.dbReader.lookupFn ip = (Option.none, pl))
    (hip : parseIpAddress ip = some a)
    (hpl : pl ≤ a.version.bits) :
    (r.get caller databaseType ip).1 =
      .error (.addressNotFound ("The address " ++ ip ++ " is not in the database.")
        (some ip) (some pl)) ∧
    addressNotFoundNetwork (some ip) (some pl) =
      some ⟨a.version, a.value / 2 ^ (a.version.bits - pl) * 2 ^ (a.version.bits - pl), pl⟩ ∧
    (∀ p, addressNotFoundNetwork Option.none p = Option.none) ∧
    (∀ s, addressNotFoundNetwork s Option.none = Option.none) := by
  refine ⟨?_, ?_, ?_, ?_⟩
  · simp [Reader.get, hty, MaxMindReader.getWithPrefixLen, hopen, hmiss]
  · simp [addressNotFoundNetwork, ipNetworkStrictFalse, hip, ipNetworkOfParts, hpl]
  · intro p; cases p <;> rfl
  · intro s; cases s <;> rfl

theorem address_not_found_error_network_witness :
    (cityMissReader.get "city" "City" "10.10.10.10").1 =
      .error (.addressNotFound "The address 10.10.10.10 is not in the database."
        (some "10.10.10.10") (some 8)) ∧
    addressNotFoundNetwork (some "10.10.10.10") (some 8) = some ⟨.v4, 167772160, 8⟩ := by
  have h := address_not_found_error_network cityMissReader "city" "City" "10.10.10.10"
    8 ⟨.v4, 168430090⟩ (by decide) (by decide) rfl (by decide) (by decide)
  exact ⟨h.1.trans (by decide), h.2.1.trans (by decide)⟩

/-- C6 (amended): After `close()`, every lookup whose required database-type
string matches the opened database fails deterministically with the
resource-closed error.  (A type-incompatible lookup instead fails with the
same deterministic `TypeError` as before close — see the counterexample —
because `_get` checks the cached database type before touching the backing
reader.)  Backing-reader close behavior modelled from the spec. -/
theorem closed_reader_matching_lookup_resource_closed {ρ : Type} (r : Reader ρ)
    (ip methodName databaseType : String)
    (_hm : (methodName, databaseType) ∈ lookupMethods)
    (hty : strContains r.dbType databaseType = true) :
    (r.close).methodCall methodName databaseType ip = .error .resourceClosed := by
  simp [Reader.methodCall, Reader.get, Reader.close, MaxMindReader.close,
    MaxMindReader.getWithPrefixLen, hty]

theorem closed_reader_matching_lookup_resource_closed_witness :
    (cityMissReader.close).methodCall "city" "City" "10.10.10.10" =
      .error .resourceClosed := by
  exact closed_reader_matching_lookup_resource_closed cityMissReader "10.10.10.10"
    "city" "City" (by decide) (by decide)

/-- C6 counterexample: on a closed City-database reader, the `asn` lookup
(a genuine lookup method) fails with a `TypeError`, not with the
resource-closed error — refuting "every subsequent lookup call fails with a
resource-closed error". -/
theorem closed_reader_counterexample :
    ("asn", "GeoLite2-ASN") ∈ lookupMethods ∧
    (cityMissReader.close).methodCall "asn" "GeoLite2-ASN" "1.2.3.4" =
      .error (.typeError "The asn method cannot be used with the GeoLite2-City database") ∧
    (cityMissReader.close).methodCall "asn" "GeoLite2-ASN" "1.2.3.4" ≠
      .error .resourceClosed := by
  refine ⟨by decide, by decide, by decide⟩

/-- C3 (amended): For every non-200 response, a 4xx response delivering a
JSON body (nonempty content, a `Content-Type` header containing `json`, a
parseable body) with both `code` and `error` keys is mapped by the
enumerated code table; every 5xx response, and every 4xx response without
such a body, is an `HTTPError` carrying the status and URI — except that a
4xx response with a nonempty body but no `Content-Type` header at all fails
with a `KeyError` instead (see the counterexample).  The mapping is a pure
function of the single response: no retry happens at this layer. -/
theorem ws_error_classification (r : WsResponse) (uri : String) :
    (∀ ct body message code,
      400 ≤ r.statusCode → r.statusCode < 500 →
      r.content ≠ "" → r.contentType = some ct → strContains ct "json" = true →
      r.jsonBody = some body →
      dictGet "error" body = some message → dictGet "code" body = some code →
      exceptionForError r uri = exceptionForWebServiceError message code r.statusCode uri) ∧
    (∀ message code status u,
      ((code = "IP_ADDRESS_NOT_FOUND" ∨ code = "IP_ADDRESS_RESERVED") →
        exceptionForWebServiceError message code status u = .addressNotFound message) ∧
      ((code = "ACCOUNT_ID_REQUIRED" ∨ code = "ACCOUNT_ID_UNKNOWN" ∨
        code = "AUTHORIZATION_INVALID" ∨ code = "LICENSE_KEY_REQUIRED" ∨
        code = "USER_ID_REQUIRED" ∨ code = "USER_ID_UNKNOWN") →
        exceptionForWebServiceError message code status u = .authentication message) ∧
      ((code = "INSUFFICIENT_FUNDS" ∨ code = "OUT_OF_QUERIES") →
        exceptionForWebServiceError message code status u = .outOfQueries message) ∧
      (code = "PERMISSION_REQUIRED" →
        exceptionForWebServiceError message code status u = .permissionRequired message) ∧
      (code ∉ ["IP_ADDRESS_NOT_FOUND", "IP_ADDRESS_RESERVED", "ACCOUNT_ID_REQUIRED",
        "ACCOUNT_ID_UNKNOWN", "AUTHORIZATION_INVALID", "LICENSE_KEY_REQUIRED",
        "USER_ID_REQUIRED", "USER_ID_UNKNOWN", "INSUFFICIENT_FUNDS", "OUT_OF_QUERIES",
        "PERMISSION_REQUIRED"] →
        exceptionForWebServiceError message code status u =
          .invalidRequest message code status u)) ∧
    (500 ≤ r.statusCode → r.statusCode < 600 →
      exceptionForError r uri = .http ("Received a server error (" ++
        toString r.statusCode ++ ") for " ++ uri) r.statusCode uri) ∧
    (400 ≤ r.statusCode → r.statusCode < 500 → r.content = "" →
      exceptionForError r uri = .http ("Received a " ++ toString r.statusCode ++
        " error for " ++ uri ++ " with no body.") r.statusCode uri) ∧
    (400 ≤ r.statusCode → r.statusCode < 500 → r.content ≠ "" →
      r.contentType = Option.none →
      exceptionForError r uri = .keyError "Content-Type") ∧
    (∀ ct, 400 ≤ r.statusCode → r.statusCode < 500 → r.content ≠ "" →
      r.contentType = some ct → strContains ct "json" = false →
      exceptionForError r uri = .http ("Received a " ++ toString r.statusCode ++
        " for " ++ uri ++ " with the following body: " ++ r.content) r.statusCode uri) ∧
    (∀ ct, 400 ≤ r.statusCode → r.statusCode < 500 → r.content ≠ "" →
      r.contentType = some ct → strContains ct "json" = true → r.jsonBody = Option.none →
      exceptionForError r uri = .http ("Received a " ++ toString r.statusCode ++
        " error for " ++ uri ++ " but it did not include the expected JSON body: ")
        r.statusCode uri) ∧
    (∀ ct body, 400 ≤ r.statusCode → r.statusCode < 500 → r.content ≠ "" →
      r.contentType = some ct → strContains ct "json" = true → r.jsonBody = some body →
      (dictGet "error" body = Option.none ∨ dictGet "code" body = Option.none) →
      exceptionForError r uri =
        .http "Response contains JSON but it does not specify code or error keys"
          r.statusCode uri) := by
  refine ⟨?_, ?_, ?_, ?_, ?_, ?_, ?_, ?_⟩
  · intro ct body message code h1 h2 hc hct hjson hb he hcd
    simp [exceptionForError, h1, h2, exceptionFor4xxStatus, hc, hct, hjson, hb, he, hcd]
  · intro message code status u
    refine ⟨fun h => ?_, fun h => ?_, fun h => ?_, fun h => ?_, fun h => ?_⟩
    · rcases h with h | h <;> subst h <;> rfl
    · rcases h with h | h | h | h | h | h <;> subst h <;> rfl
    · rcases h with h | h <;> subst h <;> rfl
    · subst h; rfl
    · simp only [List.mem_cons, List.not_mem_nil, or_false, not_or] at h
      obtain ⟨n1, n2, n3, n4, n5, n6, n7, n8, n9, n10, n11⟩ := h
      simp [exceptionForWebServiceError, n1, n2, n3, n4, n5, n6, n7, n8, n9, n10, n11]
  · intro h1 h2
    have hno : ¬ (400 ≤ r.statusCode ∧ r.statusCode < 500) := by omega
    simp [exceptionForError, hno, h1, h2, exceptionFor5xxStatus]
  · intro h1 h2 hc
    simp [exceptionForError, h1, h2, exceptionFor4xxStatus, hc]
  · intro h1 h2 hc hct
    simp [exceptionForError, h1, h2, exceptionFor4xxStatus, hc, hct]
  · intro ct h1 h2 hc hct hjson
    simp [exceptionForError, h1, h2, exceptionFor4xxStatus, hc, hct, hjson]
  · intro ct h1 h2 hc hct hjson hb
    simp [exceptionForError, h1, h2, exceptionFor4xxStatus, hc, hct, hjson, hb]
  · intro ct body h1 h2 hc hct hjson hb hkeys
    rcases hkeys with hk | hk
    · simp [exceptionForError, h1, h2, exceptionFor4xxStatus, hc, hct, hjson, hb, hk]
    · cases he : dictGet "error" body <;>
        simp [exceptionForError, h1, h2, exceptionFor4xxStatus, hc, hct, hjson, hb, hk, he]

theorem ws_error_classification_witness :
    exceptionForError outOfQueriesResponse "https://geoip.maxmind.com/geoip/v2.1/city/me" =
      .outOfQueries "out of queries" := by
  have h := ws_error_classification outOfQueriesResponse
    "https://geoip.maxmind.com/geoip/v2.1/city/me"
  have h1 := h.1 "application/json" [("code", "OUT_OF_QUERIES"), ("error", "out of queries")]
    "out of queries" "OUT_OF_QUERIES" (by decide) (by decide) (by decide) rfl (by decide)
    rfl (by decide) (by decide)
  have h2 := (h.2.1 "out of queries" "OUT_OF_QUERIES"
    outOfQueriesResponse.statusCode
    "https://geoip.maxmind.com/geoip/v2.1/city/me").2.2.1 (Or.inr rfl)
  exact h1.trans h2

/-- C3 counterexample: a 404 response with a nonempty body but no
`Content-Type` header is mapped to a `KeyError` (the source indexes
`response.headers["Content-Type"]` unconditionally), not to an `HTTPError`
carrying the status and URI as the claim requires for a 4xx response
without a structured body. -/
theorem ws_error_classification_counterexample :
    exceptionForError noContentTypeResponse "https://x" = .keyError "Content-Type" ∧
    (exceptionForError noContentTypeResponse "https://x").isHttpError = false := by
  exact ⟨by decide, by decide⟩

/-- C4 (amended): every web-service call with endpoint path `p` and IP
argument `a` issues a GET request to exactly
`"https://{host}/geoip/v2.1/" + p + "/" + str(ipaddress.ip_address(a))` —
the canonical string form of `a` — when `a` is not the literal `"me"`, and
to `.../p/me` otherwise, with HTTP Basic authentication from
`str(account_id)` and the license key and an `Accept: application/json`
header.  `str(a)` coincides with the URI tail only when `a` is already in
canonical form (see the counterexample). -/
theorem ws_request_uri (c : WsClient) (path a : String) (addr : IpAddr)
    (hme : a ≠ "me") (hip : parseIpAddress a = some addr) :
    c.requestFor path a =
      some ⟨c.baseUri ++ "/" ++ path ++ "/" ++ formatIpAddr addr,
        c.accountId, c.licenseKey, "application/json"⟩ ∧
    (∀ path', c.requestFor path' "me" =
      some ⟨c.baseUri ++ "/" ++ path' ++ "/" ++ "me",
        c.accountId, c.licenseKey, "application/json"⟩) ∧
    (∀ (accountId : Int) (licenseKey host : String),
      WsClient.make accountId licenseKey host =
        ⟨toString accountId, licenseKey, "https://" ++ host ++ "/geoip/v2.1"⟩) := by
  refine ⟨?_, fun path' => ?_, fun accountId licenseKey host => rfl⟩
  · simp [WsClient.requestFor, hme, hip]
  · simp [WsClient.requestFor]

theorem ws_request_uri_witness :
    clientFixture.requestFor "city" "81.2.69.160" =
      some ⟨"https://geoip.maxmind.com/geoip/v2.1/city/81.2.69.160",
        "42", "abcdef123456", "application/json"⟩ := by
  have h := (ws_request_uri clientFixture "city" "81.2.69.160" ⟨.v4, 1359103392⟩
    (by decide) (by decide)).1
  exact h.trans (by decide)

/-- C4 counterexample: for the valid (but non-canonical) IPv6 address
string `"2001:DB8::1"`, the issued URI ends in the canonical form
`2001:db8::1` produced by `str(ipaddress.ip_address(a))`, not in
`str(a)` as the claim states. -/
theorem ws_request_uri_counterexample :
    (clientFixture.requestFor "city" "2001:DB8::1").map HttpRequest.uri =
      some "https://geoip.maxmind.com/geoip/v2.1/city/2001:db8::1" ∧
    (clientFixture.requestFor "city" "2001:DB8::1").map HttpRequest.uri ≠
      some ("https://geoip.maxmind.com/geoip/v2.1/city/" ++ "2001:DB8::1") := by
  exact ⟨by decide, by decide⟩

/-! ## Equality lemmas for the object layer -/

mutual
theorem pyBeqS_refl : (v : PyVal) → pyBeqS v v = true
  | .none => rfl
  | .bool b => by simp [pyBeqS]
  | .int n => by simp [pyBeqS]
  | .str s => by simp [pyBeqS]
  | .strDict d => by simp [pyBeqS]
  | .list xs => by simp [pyBeqS, listBeqS_refl xs]
  | .dict d => by simp [pyBeqS, fieldsBeqS_refl d]
  | .obj c a i n => by simp [pyBeqS, fieldsBeqS_refl a]
theorem listBeqS_refl : (l : PyValList) → listBeqS l l = true
  | .nil => rfl
  | .cons v t => by simp [listBeqS, pyBeqS_refl v, listBeqS_refl t]
theorem fieldsBeqS_refl : (f : PyFields) → fieldsBeqS f f = true
  | .nil => rfl
  | .cons k v t => by simp [fieldsBeqS, pyBeqS_refl v, fieldsBeqS_refl t]
end

theorem fieldsBeqExt_refl (d : PyFields) : fieldsBeqExt d d = true :=
  fieldsBeqS_refl _

theorem isinstanceOf_self (c : PyClass) : isinstanceOf c c = true := by
  cases c <;> rfl

theorem modelEq_refl_obj (c : PyClass) (a : PyFields) (i n : Option String) :
    modelEq (.obj c a i n) (.obj c a i n) = true := by
  simp [modelEq, isinstanceOf_self, fieldsBeqExt_refl]

theorem lookup_fieldsSet_ne : (f : PyFields) → (k0 : String) → (v : PyVal) →
    (k : String) → k0 ≠ k → fieldsLookup k (fieldsSet f k0 v) = fieldsLookup k f
  | .nil, k0, v, k, h => by simp [fieldsSet, fieldsLookup, h]
  | .cons k' v' t, k0, v, k, h => by
    unfold fieldsSet
    by_cases hk : k' = k0
    · subst hk
      simp [fieldsLookup, h]
    · simp only [hk, if_false]
      unfold fieldsLookup
      by_cases hkk : k' = k
      · simp [hkk]
      · simp [hkk, lookup_fieldsSet_ne t k0 v k h]

theorem lookup_none_of_not_mem_keys : (f : PyFields) → (k : String) →
    ¬ k ∈ fieldsKeys f → fieldsLookup k f = Option.none
  | .nil, _, _ => rfl
  | .cons k' v t, k, h => by
    simp only [fieldsKeys, List.mem_cons, not_or] at h
    unfold fieldsLookup
    rw [if_neg (fun e => h.1 e.symm)]
    exact lookup_none_of_not_mem_keys t k h.2

theorem lookup_toDictFields_none : (f : PyFields) → (k : String) →
    fieldsLookup k f = Option.none → fieldsLookup k (toDictFields f) = Option.none
  | .nil, _, _ => rfl
  | .cons k' v t, k, h => by
    unfold fieldsLookup at h
    by_cases hk : k' = k
    · rw [if_pos hk] at h; cases h
    · rw [if_neg hk] at h
      have ihh := lookup_toDictFields_none t k h
      unfold toDictFields
      by_cases hu : startsWithUnderscore k' = true
      · simp [hu, ihh]
      · simp only [hu, Bool.false_eq_true, if_false]
        split <;> (try split) <;> simp [fieldsLookup, hk, ihh]

theorem lookup_toDictFields_underscore : (f : PyFields) → (k : String) →
    startsWithUnderscore k = true → fieldsLookup k (toDictFields f) = Option.none
  | .nil, _, _ => rfl
  | .cons k' v t, k, hu => by
    have ihh := lookup_toDictFields_underscore t k hu
    unfold toDictFields
    by_cases hu' : startsWithUnderscore k' = true
    · simp [hu', ihh]
    · have hk : k' ≠ k := by
        intro e; rw [e, hu] at hu'; exact hu' rfl
      simp only [hu', Bool.false_eq_true, if_false]
      split <;> (try split) <;> simp [fieldsLookup, hk, ihh]

theorem lookup_toDictFields_omitted : (f : PyFields) → (k : String) →
    (fieldsKeys f).Nodup →
    (fieldsLookup k f = some .none ∨ fieldsLookup k f = some (.bool false) ∨
      fieldsLookup k f = some (.strDict []) ∨ fieldsLookup k f = some (.list .nil) ∨
      fieldsLookup k f = some (.dict .nil)) →
    fieldsLookup k (toDictFields f) = Option.none
  | .nil, k, _, h => by simp [fieldsLookup] at h
  | .cons k' v t, k, hnd, h => by
    have hnd2 := List.nodup_cons.mp (by simpa [fieldsKeys] using hnd)
    by_cases hk : k' = k
    · subst hk
      have hv : v = .none ∨ v = .bool false ∨ v = .strDict [] ∨ v = .list .nil ∨
          v = .dict .nil := by
        simpa [fieldsLookup] using h
      have hrest : fieldsLookup k' (toDictFields t) = Option.none :=
        lookup_toDictFields_none t k' (lookup_none_of_not_mem_keys t k' hnd2.1)
      unfold toDictFields
      by_cases hu : startsWithUnderscore k' = true
      · simp [hu, hrest]
      · rcases hv with rfl | rfl | rfl | rfl | rfl <;>
          simp [hu, toDictList, PyFields.isNil, List.isEmpty, hrest]
    · have h' : fieldsLookup k t = some .none ∨ fieldsLookup k t = some (.bool false) ∨
          fieldsLookup k t = some (.strDict []) ∨ fieldsLookup k t = some (.list .nil) ∨
          fieldsLookup k t = some (.dict .nil) := by
        simpa [fieldsLookup, hk] using h
      have ihh := lookup_toDictFields_omitted t k hnd2.2 h'
      unfold toDictFields
      by_cases hu : startsWithUnderscore k' = true
      · simp [hu, ihh]
      · simp only [hu, Bool.false_eq_true, if_false]
        split <;> (try split) <;> simp [fieldsLookup, hk, ihh]

theorem lookup_objToDict_underscore (attrs : PyFields) (i n : Option String)
    (k : String) (hu : startsWithUnderscore k = true) :
    fieldsLookup k (objToDict attrs i n) = Option.none := by
  have hbase := lookup_toDictFields_underscore attrs k hu
  have hip : "ip_address" ≠ k := by
    intro e; rw [← e] at hu; exact absurd hu (by decide)
  have hnet : "network" ≠ k := by
    intro e; rw [← e] at hu; exact absurd hu (by decide)
  unfold objToDict applyProps
  cases i <;> cases n <;>
    simp [lookup_fieldsSet_ne _ _ _ _ hip, lookup_fieldsSet_ne _ _ _ _ hnet, hbase]

theorem buildASN_shape (ip : String) (net : Option String) (pl : Option Nat)
    (an : Option Int) (ao : Option String) (m : PyVal)
    (h : buildASN ip net pl an ao = some m) :
    ∃ attrs i n, m = .obj .asn attrs i n := by
  unfold buildASN at h
  cases hs : simpleModelAttrs ip net pl with
  | none => rw [hs] at h; cases h
  | some base =>
    rw [hs] at h
    obtain ⟨f, ip', np⟩ := base
    cases h
    exact ⟨_, _, _, rfl⟩

theorem buildISP_shape (ip : String) (net : Option String) (pl : Option Nat)
    (an : Option Int) (ao ispn mcc mnc org : Option String) (m : PyVal)
    (h : buildISP ip net pl an ao ispn mcc mnc org = some m) :
    ∃ attrs i n, m = .obj .isp attrs i n := by
  unfold buildISP at h
  cases hs : simpleModelAttrs ip net pl with
  | none => rw [hs] at h; cases h
  | some base =>
    rw [hs] at h
    obtain ⟨f, ip', np⟩ := base
    cases h
    exact ⟨_, _, _, rfl⟩

theorem buildAnonymousIP_shape (ip : String) (net : Option String) (pl : Option Nat)
    (b1 b2 b3 b4 b5 b6 : Bool) (m : PyVal)
    (h : buildAnonymousIP ip net pl b1 b2 b3 b4 b5 b6 = some m) :
    ∃ attrs i n, m = .obj .anonymousIP attrs i n := by
  unfold buildAnonymousIP at h
  cases hs : simpleModelAttrs ip net pl with
  | none => rw [hs] at h; cases h
  | some base =>
    rw [hs] at h
    obtain ⟨f, ip', np⟩ := base
    cases h
    exact ⟨_, _, _, rfl⟩

theorem buildConnectionType_shape (ip : String) (net : Option String)
    (pl : Option Nat) (ct : Option String) (m : PyVal)
    (h : buildConnectionType ip net pl ct = some m) :
    ∃ attrs i n, m = .obj .connectionType attrs i n := by
  unfold buildConnectionType at h
  cases hs : simpleModelAttrs ip net pl with
  | none => rw [hs] at h; cases h
  | some base =>
    rw [hs] at h
    obtain ⟨f, ip', np⟩ := base
    cases h
    exact ⟨_, _, _, rfl⟩

theorem buildDomain_shape (ip : String) (net : Option String)
    (pl : Option Nat) (dn : Option String) (m : PyVal)
    (h : buildDomain ip net pl dn = some m) :
    ∃ attrs i n, m = .obj .domain attrs i n := by
  unfold buildDomain at h
  cases hs : simpleModelAttrs ip net pl with
  | none => rw [hs] at h; cases h
  | some base =>
    rw [hs] at h
    obtain ⟨f, ip', np⟩ := base
    cases h
    exact ⟨_, _, _, rfl⟩

theorem buildCountryModel_shape (ls : List String) (ip : Option String)
    (pl : Option Nat) (rec : DbRecord) (m : PyVal)
    (h : buildCountryModel ls ip pl rec = some m) :
    ∃ attrs i n, m = .obj .country attrs i n := by
  unfold buildCountryModel at h
  cases hs : buildCountryModelFields ls ip pl rec with
  | none => rw [hs] at h; cases h
  | some base => rw [hs] at h; cases h; exact ⟨_, _, _, rfl⟩

theorem buildCityModel_shape (cls : PyClass) (ls : List String) (ip : Option String)
    (pl : Option Nat) (rec : DbRecord) (m : PyVal)
    (h : buildCityModel cls ls ip pl rec = some m) :
    ∃ attrs i n, m = .obj cls attrs i n := by
  unfold buildCityModel at h
  cases hs : buildCountryModelFields ls ip pl rec with
  | none => rw [hs] at h; cases h
  | some base => rw [hs] at h; cases h; exact ⟨_, _, _, rfl⟩

/-! ## Remaining claim theorems -/

/-- C7: For every open reader and every IP address, two successive calls of
the same lookup method with the same address leave the reader unchanged and
return the same result; on success the two model objects are equal in the
sense of the models' `__eq__` (same-class instance and equal `to_dict`).
The first conjunct proves this for the shared `_model_for`/`_flat_model_for`
flow with an arbitrary model constructor (assumed only to return objects,
which is true of every `Model` instance — this also covers
`anonymous_plus`, whose model class is not among the sources); the second
proves that assumption for each of the eight methods whose model classes
are under `src/`; the third instantiates the flow for each of those
methods, including the `_model_for` City/Country/Enterprise path with its
nested records. -/
theorem lookup_method_idempotent (r : Reader DbRecord) (ip : String) :
    (∀ (build : List String → String → Nat → DbRecord → Option PyVal)
        (caller databaseType : String),
      (∀ ls ip' pl rec m, build ls ip' pl rec = some m →
        ∃ c a i n, m = PyVal.obj c a i n) →
      ((r.lookupWith build caller databaseType ip).2 = r ∧
       ((r.lookupWith build caller databaseType ip).2.lookupWith
           build caller databaseType ip).1 =
         (r.lookupWith build caller databaseType ip).1 ∧
       (∀ m1 m2, (r.lookupWith build caller databaseType ip).1 = .ok m1 →
         ((r.lookupWith build caller databaseType ip).2.lookupWith
             build caller databaseType ip).1 = .ok m2 →
         modelEq m1 m2 = true))) ∧
    (∀ (m : LookupMethod) (ls : List String) (ip' : String) (pl : Nat)
        (rec : DbRecord) (mv : PyVal),
      m.builder ls ip' pl rec = some mv → ∃ c a i n, mv = PyVal.obj c a i n) ∧
    (∀ m : LookupMethod,
      ((r.callLookup m ip).2 = r ∧
       ((r.callLookup m ip).2.callLookup m ip).1 = (r.callLookup m ip).1 ∧
       (∀ m1 m2, (r.callLookup m ip).1 = .ok m1 →
         ((r.callLookup m ip).2.callLookup m ip).1 = .ok m2 →
         modelEq m1 m2 = true))) := by
  have hgen : ∀ (build : List String → String → Nat → DbRecord → Option PyVal)
      (caller databaseType : String),
      (∀ ls ip' pl rec m, build ls ip' pl rec = some m →
        ∃ c a i n, m = PyVal.obj c a i n) →
      ((r.lookupWith build caller databaseType ip).2 = r ∧
       ((r.lookupWith build caller databaseType ip).2.lookupWith
           build caller databaseType ip).1 =
         (r.lookupWith build caller databaseType ip).1 ∧
       (∀ m1 m2, (r.lookupWith build caller databaseType ip).1 = .ok m1 →
         ((r.lookupWith build caller databaseType ip).2.lookupWith
             build caller databaseType ip).1 = .ok m2 →
         modelEq m1 m2 = true)) := by
    intro build caller databaseType hobj
    have hsnd : (r.lookupWith build caller databaseType ip).2 = r := by
      unfold Reader.lookupWith
      split
      · rfl
      · split
        · rfl
        · rfl
    refine ⟨hsnd, by rw [hsnd], ?_⟩
    intro m1 m2 e1 e2
    rw [hsnd, e1] at e2
    obtain rfl : m1 = m2 := Except.ok.inj e2
    have hobj1 : ∃ c a i n, m1 = PyVal.obj c a i n := by
      unfold Reader.lookupWith at e1
      split at e1
      · cases e1
      · split at e1
        · next rec pl m hb =>
          cases e1
          exact hobj _ _ _ _ _ hb
        · cases e1
    obtain ⟨c, a, i, n, rfl⟩ := hobj1
    exact modelEq_refl_obj _ _ _ _
  have hshape : ∀ (m : LookupMethod) (ls : List String) (ip' : String) (pl : Nat)
      (rec : DbRecord) (mv : PyVal),
      m.builder ls ip' pl rec = some mv → ∃ c a i n, mv = PyVal.obj c a i n := by
    intro m ls ip' pl rec mv h
    cases m with
    | country =>
      obtain ⟨a, i, n, rfl⟩ := buildCountryModel_shape _ _ _ _ _ h
      exact ⟨_, _, _, _, rfl⟩
    | city =>
      obtain ⟨a, i, n, rfl⟩ := buildCityModel_shape _ _ _ _ _ _ h
      exact ⟨_, _, _, _, rfl⟩
    | enterprise =>
      obtain ⟨a, i, n, rfl⟩ := buildCityModel_shape _ _ _ _ _ _ h
      exact ⟨_, _, _, _, rfl⟩
    | anonymousIP =>
      obtain ⟨a, i, n, rfl⟩ := buildAnonymousIP_shape _ _ _ _ _ _ _ _ _ _ h
      exact ⟨_, _, _, _, rfl⟩
    | asn =>
      obtain ⟨a, i, n, rfl⟩ := buildASN_shape _ _ _ _ _ _ h
      exact ⟨_, _, _, _, rfl⟩
    | connectionType =>
      obtain ⟨a, i, n, rfl⟩ := buildConnectionType_shape _ _ _ _ _ h
      exact ⟨_, _, _, _, rfl⟩
    | domain =>
      obtain ⟨a, i, n, rfl⟩ := buildDomain_shape _ _ _ _ _ h
      exact ⟨_, _, _, _, rfl⟩
    | isp =>
      obtain ⟨a, i, n, rfl⟩ := buildISP_shape _ _ _ _ _ _ _ _ _ _ h
      exact ⟨_, _, _, _, rfl⟩
  exact ⟨hgen, hshape, fun m =>
    hgen m.builder m.callerName m.databaseType (hshape m)⟩

theorem lookup_method_idempotent_witness :
    (cityFixtureReader.callLookup .city "81.2.69.160").2 = cityFixtureReader ∧
    (cityFixtureReader.callLookup .city "81.2.69.160").1 = .ok gbCityModel ∧
    ((cityFixtureReader.callLookup .city "81.2.69.160").2.callLookup
        .city "81.2.69.160").1 = .ok gbCityModel ∧
    modelEq gbCityModel gbCityModel = true := by
  have h := (lookup_method_idempotent cityFixtureReader "81.2.69.160").2.2 .city
  exact ⟨h.1, by rfl, by rfl, h.2.2 gbCityModel gbCityModel (by rfl) (by rfl)⟩

/-- C9 (amended): `Model.__eq__` holds exactly when the right operand is an
instance of the left operand's class — same class or a subclass, not "the
same class" (see the counterexample) — and the `to_dict` results are equal
as Python dicts; `to_dict` omits every `_`-prefixed attribute and (among
attributes with distinct names) every attribute whose value is `None`,
`False`, an empty dict, or an empty list; consequently a record constructed
with a boolean field explicitly `False` equals the same record constructed
without that field (both store `False`, the declared default). -/
theorem model_eq_to_dict (ca cb : PyClass) (aa ab : PyFields)
    (ia ib na nb : Option String) :
    (modelEq (.obj ca aa ia na) (.obj cb ab ib nb) = true ↔
      (isinstanceOf cb ca = true ∧
        fieldsBeqExt (objToDict aa ia na) (objToDict ab ib nb) = true)) ∧
    (∀ k, startsWithUnderscore k = true →
      fieldsLookup k (objToDict aa ia na) = Option.none) ∧
    (∀ k, (fieldsKeys aa).Nodup →
      (fieldsLookup k aa = some .none ∨ fieldsLookup k aa = some (.bool false) ∨
       fieldsLookup k aa = some (.strDict []) ∨ fieldsLookup k aa = some (.list .nil) ∨
       fieldsLookup k aa = some (.dict .nil)) →
      fieldsLookup k (objToDict aa Option.none Option.none) = Option.none) ∧
    (optModelEq
      (buildAnonymousIP "1.2.3.4" Option.none Option.none false false false false false false)
      (buildAnonymousIP "1.2.3.4" Option.none Option.none false false false false false false) =
      some true) := by
  refine ⟨?_, ?_, ?_, by decide⟩
  · simp [modelEq, pyToDict, Bool.and_eq_true]
  · intro k hu
    exact lookup_objToDict_underscore aa ia na k hu
  · intro k hnd h
    have := lookup_toDictFields_omitted aa k hnd h
    simpa [objToDict, applyProps] using this

theorem model_eq_to_dict_witness :
    startsWithUnderscore "_locales" = true ∧
    fieldsLookup "_locales" (objToDict demoAttrs Option.none Option.none) = Option.none ∧
    fieldsLookup "iso_code" (objToDict demoAttrs Option.none Option.none) = Option.none ∧
    fieldsLookup "names" (objToDict demoAttrs Option.none Option.none) = Option.none := by
  have h := model_eq_to_dict .countryRec .countryRec demoAttrs demoAttrs
    Option.none Option.none Option.none Option.none
  refine ⟨by decide, h.2.1 "_locales" (by decide), ?_, ?_⟩
  · exact h.2.2.1 "iso_code" (by decide) (Or.inl rfl)
  · exact h.2.2.1 "names" (by decide) (Or.inr (Or.inr (Or.inl rfl)))

theorem model_eq_counterexample :
    optModelEq (buildASN "1.2.3.4" Option.none Option.none Option.none Option.none)
      (buildISP "1.2.3.4" Option.none Option.none Option.none Option.none Option.none
        Option.none Option.none Option.none) = some true ∧
    ((buildASN "1.2.3.4" Option.none Option.none Option.none Option.none).bind
      PyVal.objClass = some .asn) ∧
    ((buildISP "1.2.3.4" Option.none Option.none Option.none Option.none Option.none
      Option.none Option.none Option.none).bind PyVal.objClass = some .isp) ∧
    optModelEq
      (buildISP "1.2.3.4" Option.none Option.none Option.none Option.none Option.none
        Option.none Option.none Option.none)
      (buildASN "1.2.3.4" Option.none Option.none Option.none Option.none) = some false := by
  exact ⟨by decide, by decide, by decide, by decide⟩

/-- C10: The `Traits.network` property is total: it returns `None` (never
raises) when the record has neither a network string nor both an
`ip_address` and a `prefix_len`; otherwise it returns
`ipaddress.ip_network(f"{ip_address}/{prefix_len}", strict=False)` (or the
network string parsed the same way at construction), and every subsequent
access returns the same cached value with no further state change. -/
theorem traits_network_total_and_cached (t : TraitsState) :
    (t.network = Option.none → (t.ipAddress = Option.none ∨ t.prefixLen = Option.none) →
      t.networkProp = (.ok Option.none, t)) ∧
    (∀ n, t.network = some n → t.networkProp = (.ok (some n), t)) ∧
    (∀ a p, t.network = Option.none → t.ipAddress = some a → t.prefixLen = some p →
      p ≤ a.version.bits →
      t.networkProp = (.ok (ipNetworkOfParts a p),
        { t with network := ipNetworkOfParts a p })) ∧
    (∀ v t', t.networkProp = (v, t') → t'.networkProp = (v, t')) ∧
    (∀ ns ip pl ts, TraitsState.make (some ns) ip pl = some ts →
      ts.network = parseIpNetworkArg ns) := by
  refine ⟨?_, ?_, ?_, ?_, ?_⟩
  · intro h1 h2
    cases hip : t.ipAddress <;> cases hpl : t.prefixLen <;>
      simp_all [TraitsState.networkProp]
  · intro n h
    simp [TraitsState.networkProp, h]
  · intro a p h1 h2 h3 hp
    have hn : ipNetworkOfParts a p =
        some ⟨a.version, a.value / 2 ^ (a.version.bits - p) * 2 ^ (a.version.bits - p), p⟩ := by
      simp [ipNetworkOfParts, hp]
    simp [TraitsState.networkProp, h1, h2, h3, hn]
  · intro v t' h
    cases hn : t.network with
    | some n =>
      simp [TraitsState.networkProp, hn] at h
      obtain ⟨hv, ht⟩ := h
      subst hv; subst ht
      simp [TraitsState.networkProp, hn]
    | none =>
      cases hip : t.ipAddress with
      | none =>
        simp [TraitsState.networkProp, hn, hip] at h
        obtain ⟨hv, ht⟩ := h
        subst hv; subst ht
        simp [TraitsState.networkProp, hn, hip]
      | some a =>
        cases hpl : t.prefixLen with
        | none =>
          simp [TraitsState.networkProp, hn, hip, hpl] at h
          obtain ⟨hv, ht⟩ := h
          subst hv; subst ht
          simp [TraitsState.networkProp, hn, hip, hpl]
        | some p =>
          cases hnp : ipNetworkOfParts a p with
          | none =>
            simp [TraitsState.networkProp, hn, hip, hpl, hnp] at h
            obtain ⟨hv, ht⟩ := h
            subst hv; subst ht
            simp [TraitsState.networkProp, hn, hip, hpl, hnp]
          | some n =>
            simp [TraitsState.networkProp, hn, hip, hpl, hnp] at h
            obtain ⟨hv, ht⟩ := h
            subst hv
            subst ht
            simp [TraitsState.networkProp]
  · intro ns ip pl ts h
    unfold TraitsState.make at h
    cases hpi : (match ip with
      | some s => (parseIpAddress s).map some
      | Option.none => some Option.none) with
    | none => rw [hpi] at h; cases h
    | some ipv =>
      rw [hpi] at h
      simp only [Option.bind_some] at h
      cases hpn : parseIpNetworkArg ns with
      | none => rw [hpn] at h; cases h
      | some n =>
        rw [hpn] at h
        cases h
        simp

theorem traits_network_total_and_cached_witness :
    TraitsState.networkProp ⟨Option.none, some ⟨.v4, 16909060⟩, some 24⟩ =
      (.ok (some ⟨.v4, 16909056, 24⟩),
        ⟨some ⟨.v4, 16909056, 24⟩, some ⟨.v4, 16909060⟩, some 24⟩) ∧
    TraitsState.networkProp ⟨some ⟨.v4, 16909056, 24⟩, some ⟨.v4, 16909060⟩, some 24⟩ =
      (.ok (some ⟨.v4, 16909056, 24⟩),
        ⟨some ⟨.v4, 16909056, 24⟩, some ⟨.v4, 16909060⟩, some 24⟩) := by
  have h := traits_network_total_and_cached ⟨Option.none, some ⟨.v4, 16909060⟩, some 24⟩
  have h3 := h.2.2.1 ⟨.v4, 16909060⟩ 24 rfl rfl rfl (by decide)
  have h1 : TraitsState.networkProp ⟨Option.none, some ⟨.v4, 16909060⟩, some 24⟩ =
      (.ok (some ⟨.v4, 16909056, 24⟩),
        ⟨some ⟨.v4, 16909056, 24⟩, some ⟨.v4, 16909060⟩, some 24⟩) :=
    h3.trans (by decide)
  exact ⟨h1, h.2.2.2.1 _ _ h1⟩

end GeoIP2
